import Mathlib

/-!
# RVT-H Tool: command-line extract/import, hash wrapper, bank list model

A shallow embedding of

* `src/rvthtool/extract.cpp` (`progress_callback`, `extract`, `import`),
* `src/librvth/hashw_capi.c` (`hashw_sha1`),
* `src/librvth/disc_header.h` (`rvth_disc_header_identify`, declaration only),
* `src/qrvthtool/RvtHModel.cpp` (`rowCount`, `columnCount`, `data`, `setRvtH`),
* `src/qrvthtool/windows/QRvtHToolWindow.cpp` (`openRvtH`, `closeRvtH`),

followed by the properties of these functions.

Conventions of the embedding.

* `unsigned int` and `uint32_t` values are natural numbers below `2^32`;
  every arithmetic operation of the source that can wrap is written with an
  explicit `% 2^32`.
* A C string is the list of its characters; the terminating NUL is implied,
  so dereferencing the end of the list reads `'\0'`.
* A function that writes to `stdout`/`stderr`, calls the library or releases
  the handle returns, next to its C return value, the list of these effects
  in program order.
* `assert` is kept: every function containing one takes the flag `NDEBUG`
  (assertions compiled out) and yields `Outcome.assertFailed` when an
  assertion that is compiled in does not hold.
* `int` values are integers; a sum that `RvtHModel::data` computes in `int`
  is brought back into the range of `int` by `int_wrap`.
* Enumerators declared in headers that are not among the source files are
  parameters (`RvtHModelEnums`); the translation function `tr` of Qt is a
  parameter as well.
-/

namespace RvtHTool

/-! ## Platform constants -/

/-- Value of `EINVAL` in `<errno.h>` (the same on Linux, macOS and MSVC). -/
def EINVAL : Int := 22

/-- Value of `ENOSYS` in `<errno.h>` (Linux numbering). -/
def ENOSYS : Int := 38

/-- Number of values of the 32-bit `unsigned int` type: `UINT_MAX + 1`. -/
def UINT_MOD : Nat := 4294967296

/-- Result of running a function that contains `assert`. -/
inductive Outcome (α : Type) where
  | returned (a : α)
  | assertFailed
  deriving DecidableEq, Repr

/-! ## `strtoul` in base 10 -/

/-- The `isspace` predicate of the "C" locale. -/
def isspace (c : Char) : Bool :=
  c == ' ' || c == '\t' || c == '\n' || c == '\x0b' || c == '\x0c' || c == '\r'

/-- Consumes the leading decimal digits of `s`, accumulating their value on
top of `acc`; returns the value and the unconsumed rest. -/
def scanDigits : Nat → List Char → Nat × List Char
  | acc, [] => (acc, [])
  | acc, c :: cs =>
    if c.isDigit then scanDigits (acc * 10 + (c.toNat - '0'.toNat)) cs
    else (acc, c :: cs)

/-- Splits an optional sign off the front: `(negative, rest)`. -/
def scanSign : List Char → Bool × List Char
  | '-' :: t => (true, t)
  | '+' :: t => (false, t)
  | s => (false, s)

/-- The library call `_tcstoul(nptr, &endptr, 10)` (`strtoul`/`wcstoul`),
after ISO C 7.22.1.4: leading white space, an optional sign, then the longest
run of decimal digits. Returns the converted value and `endptr`.
With no digit there is no conversion: the value is 0 and `endptr = nptr`.
A value above `ULONG_MAX` is reported as `ULONG_MAX`; a leading minus sign
negates the value in `unsigned long`. -/
def _tcstoul (ULONG_MAX : Nat) (nptr : List Char) : Nat × List Char :=
  let (neg, s) := scanSign (nptr.dropWhile isspace)
  match s with
  | [] => (0, nptr)
  | c :: _ =>
    if c.isDigit then
      let (v, endptr) := scanDigits 0 s
      if v > ULONG_MAX then (ULONG_MAX, endptr)
      else if neg then ((ULONG_MAX + 1 - v) % (ULONG_MAX + 1), endptr)
      else (v, endptr)
    else (0, nptr)

/-- The character read by `*p` for a pointer `p` into a NUL-terminated
string whose remaining characters are `p`. -/
def deref (p : List Char) : Char :=
  match p with
  | [] => '\x00'
  | c :: _ => c

/-! ## The library object and the effects of the commands -/

/-- The part of an `RvtH` object (class declared in `librvth/rvth.hpp`, a
header that is not among the source files) that `extract.cpp` uses: what its
methods return. The
methods `extract` and `import` take the progress callback as their last
argument; their return code is the library's business and is left free. -/
structure RvtH where
  /-- Return value of `bankCount()`, an `unsigned int`. -/
  bankCount : Nat
  /-- Return value of `isHDD()`. -/
  isHDD : Bool
  /-- Return value of `extract(bank, gcm_filename, recrypt_key, flags, callback)`. -/
  extract : Nat → String → Int → Nat → Int
  /-- Return value of `import(bank, gcm_filename, callback)`. -/
  import_ : Nat → String → Int

/-- What the commands are linked against. -/
structure Env where
  /-- Largest `unsigned long`: `2^32 - 1` on Windows, `2^64 - 1` on LP64. -/
  ULONG_MAX : Nat
  /-- The expression `new RvtH(rvth_filename, &ret)`: the pointer (`none` is
  the null pointer) and the value the constructor stores into `ret`. -/
  newRvtH : String → Option RvtH × Int
  /-- The function `rvth_error` of `librvth/rvth_error.h`. -/
  rvth_error : Int → String

/-- Observable actions of the commands, in the order they are performed. -/
inductive Effect where
  /-- Text written to `stdout` by one `printf`/`fputs`/`putchar` call. -/
  | stdout (s : String)
  /-- Text written to `stderr` by one call. -/
  | stderr (s : String)
  /-- The call `print_bank(rvth, bank)` of `list-banks.cpp`. -/
  | print_bank (bank : Nat)
  /-- The call `rvth->extract(bank, gcm_filename, recrypt_key, flags, progress_callback)`. -/
  | rvth_extract (bank : Nat) (gcm_filename : String) (recrypt_key : Int) (flags : Nat)
  /-- The call `rvth->import(bank, gcm_filename, progress_callback)`. -/
  | rvth_import (bank : Nat) (gcm_filename : String)
  /-- The statement `delete rvth`. -/
  | delete_rvth
  /-- The call `fflush(stdout)`. -/
  | fflush_stdout
  /-- Deleting the file `filename` (the C library call `remove`). No function of
  `extract.cpp` performs it (see the TODO of lines 136 and 192); it is part of
  the vocabulary so that leaving a file alone can be stated. -/
  | remove (filename : String)
  deriving DecidableEq, Repr

/-- Conversion `%u` of `printf` applied to an `unsigned int`. -/
def fmt_u (n : Nat) : String := toString (n % UINT_MOD)

/-- The expression `(unsigned int)_tcstoul(s_bank, &endptr, 10) - 1` together
with `endptr`: the conversion to `unsigned int` and the subtraction both wrap
modulo `2^32`. -/
def parse_bank (env : Env) (s_bank : String) : Nat × List Char :=
  let r := _tcstoul env.ULONG_MAX s_bank.data
  ((r.1 % UINT_MOD + UINT_MOD - 1) % UINT_MOD, r.2)

/-- The test `*endptr != 0 || bank > rvth->bankCount()` of both commands. -/
def bank_rejected (rvth : RvtH) (bank : Nat) (endptr : List Char) : Bool :=
  deref endptr != '\x00' || decide (bank > rvth.bankCount)

/-- The three `stderr` writes of the "Invalid bank number" branch. -/
def invalid_bank_msg (s_bank : String) : List Effect :=
  [.stderr "*** ERROR: Invalid bank number '", .stderr s_bank, .stderr "'.\n"]

/-- The three `stderr` writes done when `new RvtH` gave a null pointer. -/
def open_error_msg (env : Env) (rvth_filename : String) (ret : Int) : List Effect :=
  [.stderr "*** ERROR opening RVT-H device '", .stderr rvth_filename,
   .stderr ("': " ++ env.rvth_error ret ++ "\n")]

/-- Lines 122-141 of `extract.cpp`: everything `extract` does once `bank`
is chosen. -/
def extract_bank (env : Env) (rvth : RvtH) (bank : Nat) (gcm_filename : String)
    (recrypt_key : Int) (flags : Nat) : Int × List Effect :=
  let ret := rvth.extract bank gcm_filename recrypt_key flags
  (ret,
    [.print_bank bank, .stdout "\n",
     .stdout ("Extracting Bank " ++ fmt_u (bank + 1) ++ " into '"),
     .stdout gcm_filename, .stdout "'...\n",
     .rvth_extract bank gcm_filename recrypt_key flags] ++
    (if ret = 0 then
       [.stdout ("Bank " ++ fmt_u (bank + 1) ++ " extracted to '"),
        .stdout gcm_filename, .stdout "' successfully.\n\n"]
     else
       [.stderr ("*** ERROR: rvth_extract() failed: " ++ env.rvth_error ret ++ "\n")]) ++
    [.delete_rvth])

deriving instance DecidableEq for Except

/-- Lines 97-120 of `extract.cpp`, the choice of the bank: the zero-based
bank, or the messages written before `delete rvth; return -EINVAL;`.
`s_bank = none` is the null pointer. -/
def extract_select_bank (env : Env) (rvth : RvtH) (s_bank : Option String) :
    Except (List Effect) Nat :=
  match s_bank with
  | some s =>
    let p := parse_bank env s
    if bank_rejected rvth p.1 p.2 then .error (invalid_bank_msg s) else .ok p.1
  | none =>
    if rvth.bankCount ≠ 1 then
      .error [.stderr ("*** ERROR: Must specify a bank number for this RVT-H Reader" ++
        (if rvth.isHDD then "" else " disk image") ++ ".\n")]
    else .ok 0

/-- The `extract` command. Returns the command's return value and its
effects. -/
def extract (env : Env) (rvth_filename : String) (s_bank : Option String)
    (gcm_filename : String) (recrypt_key : Int) (flags : Nat) : Int × List Effect :=
  match env.newRvtH rvth_filename with
  | (none, ret) => (ret, open_error_msg env rvth_filename ret)
  | (some rvth, _) =>
    match extract_select_bank env rvth s_bank with
    | .error msgs => (-EINVAL, msgs ++ [.delete_rvth])
    | .ok bank => extract_bank env rvth bank gcm_filename recrypt_key flags

/-- Lines 176-197 of `extract.cpp`: everything `import` does once `bank`
has passed the test. -/
def import_bank (env : Env) (rvth : RvtH) (bank : Nat) (gcm_filename : String) :
    Int × List Effect :=
  let ret := rvth.import_ bank gcm_filename
  (ret,
    [.print_bank bank, .stdout "\n",
     .stdout "Importing '", .stdout gcm_filename,
     .stdout ("' into Bank " ++ fmt_u (bank + 1) ++ "...\n"),
     .rvth_import bank gcm_filename] ++
    (if ret = 0 then
       [.stdout "'", .stdout gcm_filename,
        .stdout ("' imported to Bank " ++ fmt_u (bank + 1) ++ " successfully.\n")]
     else
       [.stderr ("*** ERROR: rvth_import() failed: " ++ env.rvth_error ret ++ "\n")]) ++
    [.delete_rvth])

/-- Lines 165-174 of `extract.cpp`, the validation of the bank number:
the zero-based bank, or the messages written before
`delete rvth; return -EINVAL;`. -/
def import_select_bank (env : Env) (rvth : RvtH) (s_bank : String) :
    Except (List Effect) Nat :=
  let p := parse_bank env s_bank
  if bank_rejected rvth p.1 p.2 then .error (invalid_bank_msg s_bank) else .ok p.1

/-- The `import` command (`import` is reserved in Lean, hence the
underscore). Returns the command's return value and its effects. -/
def import_ (env : Env) (rvth_filename : String) (s_bank : String)
    (gcm_filename : String) : Int × List Effect :=
  match env.newRvtH rvth_filename with
  | (none, ret) => (ret, open_error_msg env rvth_filename ret)
  | (some rvth, _) =>
    match import_select_bank env rvth s_bank with
    | .error msgs => (-EINVAL, msgs ++ [.delete_rvth])
    | .ok bank => import_bank env rvth bank gcm_filename

/-- Whether an effect is a call of the library's extract or import. -/
def Effect.isLibraryCall : Effect → Bool
  | .rvth_extract _ _ _ _ => true
  | .rvth_import _ _ => true
  | _ => false

/-- The effects performed after the first library call of a trace (empty
when the trace has no library call). -/
def effectsAfterCall (trace : List Effect) : List Effect :=
  (trace.dropWhile (fun e => !e.isLibraryCall)).tail

/-! ## The progress callback -/

/-- Modelled from the spec: the constant `RVTH_BLOCK_SIZE` of the library
headers, which are not among the source files; the spec fixes the
RVT-H block at 512 bytes. -/
def RVTH_BLOCK_SIZE : Nat := 512

/-- The macro `MEGABYTE` of `progress_callback`: blocks per megabyte. -/
def MEGABYTE : Nat := 1048576 / RVTH_BLOCK_SIZE

/-- Modelled from the spec: the enumeration behind `state->type`, declared
in the library headers, which are not among the source files. The spec
names the operation kinds Extract, Import and Recrypt; `other` stands for
every value of the enumeration type that is none of these three. -/
inductive RvtH_Progress_Type where
  | RVTH_PROGRESS_EXTRACT
  | RVTH_PROGRESS_IMPORT
  | RVTH_PROGRESS_RECRYPT
  | other (raw : Nat)
  deriving DecidableEq, Repr

/-- Modelled from the spec: the fields of `RvtH_Progress_State` (declared in
the library headers, not among the source files) that the callback
reads: operation kind, LBAs processed, LBAs total (both `uint32_t`). -/
structure RvtH_Progress_State where
  type : RvtH_Progress_Type
  lba_processed : Nat
  lba_total : Nat
  deriving DecidableEq, Repr

/-- Conversion `%4u` of `printf`: decimal, right-justified in a field of at
least four characters. -/
def fmt_4u (n : Nat) : String :=
  let s := toString (n % UINT_MOD)
  String.mk (List.replicate (4 - s.length) ' ') ++ s

/-- Lines 68-73 of `extract.cpp`, the part of `progress_callback` after the
`switch`: the newline when finished, the flush, and `return true`. -/
def progress_finish (state : RvtH_Progress_State) (printed : List Effect) :
    Outcome (Bool × List Effect) :=
  .returned (true,
    printed ++
    (if state.lba_processed = state.lba_total then [.stdout "\n"] else []) ++
    [.fflush_stdout])

/-- The function `progress_callback`: its return value and what it writes. -/
def progress_callback (NDEBUG : Bool) (state : RvtH_Progress_State) :
    Outcome (Bool × List Effect) :=
  match state.type with
  | .RVTH_PROGRESS_EXTRACT =>
    progress_finish state
      [.stdout ("\rExtracting: " ++ fmt_4u (state.lba_processed / MEGABYTE) ++ " MB / " ++
        fmt_4u (state.lba_total / MEGABYTE) ++ " MB copied...")]
  | .RVTH_PROGRESS_IMPORT =>
    progress_finish state
      [.stdout ("\rImporting: " ++ fmt_4u (state.lba_processed / MEGABYTE) ++ " MB / " ++
        fmt_4u (state.lba_total / MEGABYTE) ++ " MB copied...")]
  | .RVTH_PROGRESS_RECRYPT =>
    if state.lba_total ≤ 1 then
      if state.lba_processed = 0 then
        progress_finish state [.stdout "\rRecrypting the ticket(s) and TMD(s)..."]
      else
        progress_finish state []
    else
      progress_finish state
        [.stdout ("\rRecrypting: " ++ fmt_4u (state.lba_processed / MEGABYTE) ++ " MB / " ++
          fmt_4u (state.lba_total / MEGABYTE) ++ " MB processed...")]
  | .other _ =>
    -- default: assert(false); return false;
    if NDEBUG then .returned (false, []) else .assertFailed

/-! ## The hash wrapper -/

/-- The function `hashw_sha1`. A pointer argument is `none` when null and
otherwise carries the bytes it points to. Returns the C return value and the
contents of the `hash` buffer after the call. -/
def hashw_sha1 (NDEBUG : Bool) (hash : Option (List Nat)) (data : Option (List Nat))
    (size : Nat) : Outcome (Int × Option (List Nat)) :=
  -- assert(hash != NULL); assert(data != NULL); assert(size != 0);
  if !NDEBUG && hash.isNone then .assertFailed
  else if !NDEBUG && data.isNone then .assertFailed
  else if !NDEBUG && size == 0 then .assertFailed
  else if hash.isNone || data.isNone || size == 0 then
    -- Invalid parameters.
    .returned (-EINVAL, hash)
  else
    -- TODO
    .returned (-ENOSYS, hash)

/-! ## The disc header -/

/-- Modelled from the spec: the enumeration `RvtH_BankType_e` of the library
headers, which are not among the source files. The spec names the bank types
Empty, GameCube, Wii_SL, Wii_DL, Wii_DL_Bank2 and Unknown; `other` stands for
every value of the enumeration type that is none of these six. -/
inductive RvtH_BankType_e where
  | RVTH_BankType_Empty
  | RVTH_BankType_Unknown
  | RVTH_BankType_GCN
  | RVTH_BankType_Wii_SL
  | RVTH_BankType_Wii_DL
  | RVTH_BankType_Wii_DL_Bank2
  | other (raw : Nat)
  deriving DecidableEq, Repr

/-- The 32-bit word stored big-endian (the byte order of a disc header) at
byte offset `offset` of `bytes`. -/
def be32 (bytes : List Nat) (offset : Nat) : Nat :=
  bytes.getD offset 0 * 16777216 + bytes.getD (offset + 1) 0 * 65536
    + bytes.getD (offset + 2) 0 * 256 + bytes.getD (offset + 3) 0

/-- Modelled from the spec: the function `rvth_disc_header_identify`, of
which only the declaration (`disc_header.h`) is among the source files, its
definition is not. The spec has `identify` inspect the magic words only, the
Wii word at offset 0x18 and the GameCube word at offset 0x1C, and return
`Unknown` when neither is found; the declaration notes that it cannot tell
Wii single-layer from dual-layer, so a Wii header is reported as `Wii_SL`.
The values of the two magic words are not given and are parameters. -/
def rvth_disc_header_identify (WII_MAGIC GCN_MAGIC : Nat) (discHeader : List Nat) :
    RvtH_BankType_e :=
  if be32 discHeader 0x18 = WII_MAGIC then .RVTH_BankType_Wii_SL
  else if be32 discHeader 0x1C = GCN_MAGIC then .RVTH_BankType_GCN
  else .RVTH_BankType_Unknown

/-! ## The bank list model (`RvtHModel.cpp`) -/

/-- The fields of `GCN_DiscHeader` (library headers) that the model reads:
the bytes of `id6` and `game_title` and the two `uint8_t` numbers. -/
structure GCN_DiscHeader where
  id6 : List Nat
  disc_number : Nat
  revision : Nat
  game_title : List Nat
  deriving DecidableEq, Repr

/-- The fields of `RvtH_BankEntry` (library headers) that the model reads. -/
structure RvtH_BankEntry where
  type : RvtH_BankType_e
  discHeader : GCN_DiscHeader
  region_code : Nat
  crypto_type : Nat
  ios_version : Nat
  is_deleted : Bool
  deriving DecidableEq, Repr

/-- The `RvtH` object as `RvtHModel.cpp` sees it through the C interface of
the library: what the two calls it makes return. -/
structure RvtHBanks where
  /-- Return value of `rvth_get_BankCount(rvth)`, as the `int` that `rowCount`
  returns. -/
  get_BankCount : Int
  /-- Return value of `rvth_get_BankEntry(rvth, bank, nullptr)`; `none` is the
  null pointer. -/
  get_BankEntry : Int → Option RvtH_BankEntry

/-- The enumerators of `RvtHModel.hpp` and of the library headers that
`RvtHModel.cpp` names. These headers are not among the source files, so the
values are parameters; the labels of one `switch` are pairwise distinct, as
C++ requires. -/
structure RvtHModelEnums where
  COL_BANKNUM : Int
  COL_ICON : Int
  COL_TITLE : Int
  COL_GAMEID : Int
  COL_DISCNUM : Int
  COL_REVISION : Int
  COL_REGION : Int
  COL_IOS_VERSION : Int
  COL_ENCRYPTION : Int
  COL_SIG_TICKET : Int
  COL_SIG_TMD : Int
  COL_APPLOADER : Int
  COL_MAX : Int
  DualLayerRole : Int
  GCN_REGION_JAPAN : Nat
  GCN_REGION_USA : Nat
  GCN_REGION_PAL : Nat
  GCN_REGION_FREE : Nat
  GCN_REGION_SOUTH_KOREA : Nat
  RVTH_CryptoType_Unknown : Nat
  RVTH_CryptoType_None : Nat
  RVTH_CryptoType_Debug : Nat
  RVTH_CryptoType_Retail : Nat
  RVTH_CryptoType_Korean : Nat
  /-- Labels of the `switch` of lines 294-313. -/
  columns_distinct : [COL_ICON, COL_TITLE, COL_BANKNUM, COL_GAMEID, COL_DISCNUM,
    COL_REVISION, COL_REGION, COL_IOS_VERSION, COL_ENCRYPTION, COL_SIG_TICKET,
    COL_SIG_TMD, COL_APPLOADER].Nodup
  /-- Labels of the `switch` of lines 212-339, the other six being
  `Qt::DisplayRole` = 0, `Qt::DecorationRole` = 1, `Qt::FontRole` = 6,
  `Qt::TextAlignmentRole` = 7, `Qt::BackgroundRole` = 8, `Qt::SizeHintRole` = 13. -/
  roles_distinct : DualLayerRole ∉ [0, 1, 6, 7, 8, 13]
  /-- Labels of the `switch` of lines 237-250. -/
  regions_distinct : [GCN_REGION_JAPAN, GCN_REGION_USA, GCN_REGION_PAL, GCN_REGION_FREE,
    GCN_REGION_SOUTH_KOREA].Nodup
  /-- Labels of the `switch` of lines 263-275. -/
  cryptos_distinct : [RVTH_CryptoType_Unknown, RVTH_CryptoType_None, RVTH_CryptoType_Debug,
    RVTH_CryptoType_Retail, RVTH_CryptoType_Korean].Nodup

/-- The column a `switch (index.column())` selects. -/
inductive Column where
  | BANKNUM | ICON | TITLE | GAMEID | DISCNUM | REVISION | REGION | IOS_VERSION
  | ENCRYPTION | SIG_TICKET | SIG_TMD | APPLOADER | other
  deriving DecidableEq, Repr

/-- The label that the value `c` of `index.column()` matches. -/
def RvtHModelEnums.column (h : RvtHModelEnums) (c : Int) : Column :=
  if c = h.COL_BANKNUM then .BANKNUM
  else if c = h.COL_ICON then .ICON
  else if c = h.COL_TITLE then .TITLE
  else if c = h.COL_GAMEID then .GAMEID
  else if c = h.COL_DISCNUM then .DISCNUM
  else if c = h.COL_REVISION then .REVISION
  else if c = h.COL_REGION then .REGION
  else if c = h.COL_IOS_VERSION then .IOS_VERSION
  else if c = h.COL_ENCRYPTION then .ENCRYPTION
  else if c = h.COL_SIG_TICKET then .SIG_TICKET
  else if c = h.COL_SIG_TMD then .SIG_TMD
  else if c = h.COL_APPLOADER then .APPLOADER
  else .other

/-- The role a `switch (role)` selects. -/
inductive Role where
  | DisplayRole | DecorationRole | TextAlignmentRole | FontRole | BackgroundRole
  | SizeHintRole | DualLayerRole | other
  deriving DecidableEq, Repr

/-- The label that the value `role` matches; the `Qt::ItemDataRole` values
are those of the Qt documentation. -/
def RvtHModelEnums.role (h : RvtHModelEnums) (role : Int) : Role :=
  if role = 0 then .DisplayRole
  else if role = 1 then .DecorationRole
  else if role = 7 then .TextAlignmentRole
  else if role = 6 then .FontRole
  else if role = 8 then .BackgroundRole
  else if role = 13 then .SizeHintRole
  else if role = h.DualLayerRole then .DualLayerRole
  else .other

/-- The value `Qt::DisplayRole`. -/
def Qt_DisplayRole : Int := 0

/-- The value `Qt::TextAlignmentRole`. -/
def Qt_TextAlignmentRole : Int := 7

/-- The value `Qt::AlignCenter`, that is `AlignHCenter | AlignVCenter`. -/
def Qt_AlignCenter : Int := 0x84

/-- The value `Qt::AlignLeft | Qt::AlignVCenter`. -/
def Qt_AlignLeft_VCenter : Int := 0x81

/-- A `QBrush`, identified by its colour. -/
structure QBrush where
  color : Nat
  deriving DecidableEq, Repr

/-- The values of `QVariant` that the model returns; `invalid` is the empty
value `QVariant()`. -/
inductive QVariant where
  | invalid
  | string (s : String)
  | int (n : Int)
  | bool (b : Bool)
  | brush (b : QBrush)
  deriving DecidableEq, Repr

/-- A `QModelIndex`: row, column and whether it belongs to a model.
`isValid()` is Qt's `row >= 0 && column >= 0 && model != nullptr`. -/
structure QModelIndex where
  row : Int
  column : Int
  hasModel : Bool
  deriving DecidableEq, Repr

/-- The method `QModelIndex::isValid`. -/
def QModelIndex.isValid (index : QModelIndex) : Bool :=
  decide (0 ≤ index.row) && decide (0 ≤ index.column) && index.hasModel

/-- The brushes of `RvtHModelPrivate::style_t` that `data` returns. -/
structure style_t where
  brush_lostFile : QBrush
  brush_lostFile_alt : QBrush
  deriving DecidableEq, Repr

/-- The members of `RvtHModelPrivate` that `rowCount`, `columnCount` and
`data` read: the image (`none` is the null pointer) and the style. -/
structure RvtHModelPrivate where
  rvth : Option RvtHBanks
  style : style_t

/-- An `int` result brought back into the range of `int` (two's complement). -/
def int_wrap (x : Int) : Int := (x + 2147483648) % 4294967296 - 2147483648

/-- The function `QString::number` on an `int`. -/
def QString_number (n : Int) : String := toString n

/-- The predicate `QChar::isSpace` on a Latin-1 code. -/
def QChar_isSpace (b : Nat) : Bool :=
  (9 ≤ b && b ≤ 13) || b == 32 || b == 0x85 || b == 0xA0

/-- The expression `QString::fromLatin1(bytes, sizeof(bytes)).trimmed()`. -/
def fromLatin1_trimmed (bytes : List Nat) : String :=
  String.mk ((((bytes.dropWhile QChar_isSpace).reverse.dropWhile QChar_isSpace).reverse).map
    Char.ofNat)

/-- The expression `QLatin1String(bytes, sizeof(bytes))`, as a string. -/
def QLatin1String (bytes : List Nat) : String :=
  String.mk (bytes.map Char.ofNat)

/-- The method `RvtHModel::rowCount`. -/
def rowCount (d : RvtHModelPrivate) : Int :=
  match d.rvth with
  | some rvth => rvth.get_BankCount
  | none => 0

/-- The method `RvtHModel::columnCount`. -/
def columnCount (h : RvtHModelEnums) (d : RvtHModelPrivate) : Int :=
  match d.rvth with
  | some _ => h.COL_MAX
  | none => 0

/-- Lines 212-342 of `RvtHModel.cpp`: the value of `data` for an entry that
is neither empty nor the second bank of a dual-layer image. The parameter
`tr` is the translation function `RvtHModel::tr`. -/
def data_listed (h : RvtHModelEnums) (tr : String → String) (style : style_t)
    (entry : RvtH_BankEntry) (index : QModelIndex) (role : Int) : QVariant :=
  match h.role role with
  | .DisplayRole =>
    match h.column index.column with
    | .BANKNUM =>
      .string (QString_number (int_wrap (index.row + 1)) ++
        (if entry.type = .RVTH_BankType_Wii_DL then
          -- Print both bank numbers.
          "\n" ++ QString_number (int_wrap (index.row + 2))
         else ""))
    | .TITLE => .string (fromLatin1_trimmed entry.discHeader.game_title)
    | .GAMEID => .string (QLatin1String entry.discHeader.id6)
    | .DISCNUM => .string (QString_number entry.discHeader.disc_number)
    | .REVISION => .string (QString_number entry.discHeader.revision)
    | .REGION =>
      if entry.region_code = h.GCN_REGION_JAPAN then .string "JPN"
      else if entry.region_code = h.GCN_REGION_USA then .string "USA"
      else if entry.region_code = h.GCN_REGION_PAL then .string "EUR"
      else if entry.region_code = h.GCN_REGION_FREE then .string "ALL"
      else if entry.region_code = h.GCN_REGION_SOUTH_KOREA then .string "KOR"
      else .string (QString_number entry.region_code)
    | .IOS_VERSION =>
      -- Wii only.
      if entry.type = .RVTH_BankType_Wii_SL ∨ entry.type = .RVTH_BankType_Wii_DL then
        .string (QString_number entry.ios_version)
      else .invalid
    | .ENCRYPTION =>
      if entry.crypto_type = h.RVTH_CryptoType_None then .string (tr "None")
      else if entry.crypto_type = h.RVTH_CryptoType_Debug then .string (tr "Debug")
      else if entry.crypto_type = h.RVTH_CryptoType_Retail then .string (tr "Retail")
      else if entry.crypto_type = h.RVTH_CryptoType_Korean then .string (tr "Korean")
      else .string (QString_number entry.crypto_type)
    | _ => .invalid
  | .TextAlignmentRole =>
    match h.column index.column with
    | .ICON => .int Qt_AlignLeft_VCenter
    | .TITLE => .int Qt_AlignLeft_VCenter
    | _ => .int Qt_AlignCenter
  | .BackgroundRole =>
    if entry.is_deleted then
      -- index.row() & 1, on a row that is not negative
      if index.row % 2 = 1 then .brush style.brush_lostFile_alt
      else .brush style.brush_lostFile
    else .invalid
  | .DualLayerRole => .bool (decide (entry.type = .RVTH_BankType_Wii_DL))
  | _ => .invalid

/-- Lines 187-342 of `RvtHModel.cpp`: the value of `data` once the bank
entry is at hand. -/
def data_entry (h : RvtHModelEnums) (tr : String → String) (style : style_t)
    (entry : RvtH_BankEntry) (index : QModelIndex) (role : Int) : QVariant :=
  match entry.type with
  | .RVTH_BankType_Empty =>
    -- Empty slot.
    if index.column = h.COL_BANKNUM then
      match h.role role with
      | .DisplayRole => .string (QString_number (int_wrap (index.row + 1)))
      | .TextAlignmentRole => .int Qt_AlignCenter
      | _ => .invalid
    else .invalid
  | .RVTH_BankType_Wii_DL_Bank2 => .invalid
  | _ => data_listed h tr style entry index role

/-- The method `RvtHModel::data`: its value and the arguments of the calls
of `rvth_get_BankEntry` it makes. -/
def data (h : RvtHModelEnums) (tr : String → String) (d : RvtHModelPrivate)
    (index : QModelIndex) (role : Int) : QVariant × List Int :=
  match d.rvth with
  | none => (.invalid, [])
  | some rvth =>
    if !index.isValid then (.invalid, [])
    else if index.row ≥ rowCount d then (.invalid, [])
    else
      -- Get the bank entry.
      match rvth.get_BankEntry index.row with
      | none => (.invalid, [index.row])
      | some entry => (data_entry h tr d.style entry index role, [index.row])

/-! ## The main window (`QRvtHToolWindow.cpp`, non-Windows build) -/

/-- The method `QString::lastIndexOf(QChar)`: the index of the last
occurrence of `c`, or -1 when there is none. -/
def lastIndexOf (c : Char) : List Char → Int
  | [] => -1
  | x :: xs =>
    let r := lastIndexOf c xs
    if 0 ≤ r then r + 1 else if x = c then 0 else -1

/-- Lines 270-297 of `QRvtHToolWindow.cpp`: the display filename that
`openRvtH` derives from `filename`. -/
def displayFilenameOf (filename : String) : String :=
  let displayFilename := filename
  -- Does the path start with "/dev/"?
  let removeDir := !("/dev/".data.isPrefixOf displayFilename.data)
  if removeDir then
    let lastSlash := lastIndexOf '/' displayFilename.data
    if lastSlash ≥ 0 then
      -- displayFilename.remove(0, lastSlash + 1)
      String.mk (displayFilename.data.drop (lastSlash + 1).toNat)
    else displayFilename
  else displayFilename

/-- What the window and its model do to other objects, in program order. -/
inductive WindowEffect where
  | beginRemoveRows (first last : Int)
  | endRemoveRows
  | beginInsertRows (first last : Int)
  | endInsertRows
  /-- The statement `delete d->rvth` on the object at address `p`. -/
  | delete_rvth (p : Nat)
  /-- The call `d->updateLstBankList()`. -/
  | updateLstBankList
  /-- The call `d->updateWindowTitle()`. -/
  | updateWindowTitle
  deriving DecidableEq, Repr

/-- The method `RvtHModel::setRvtH`, on the pointer `d_rvth` that the model
holds (`none` is the null pointer): the pointer held afterwards and the
signals sent. The parameter `bankCountOf` gives `rvth_get_BankCount` of the
object at an address. -/
def setRvtH (bankCountOf : Nat → Int) (d_rvth : Option Nat) (rvth : Option Nat) :
    Option Nat × List WindowEffect :=
  let r1 : Option Nat × List WindowEffect :=
    match d_rvth with
    | some old =>
      -- Notify the view that we're about to remove all rows.
      let bankCount := bankCountOf old
      (none,
        (if bankCount > 0 then [.beginRemoveRows 0 (bankCount - 1)] else []) ++
        (if bankCount > 0 then [.endRemoveRows] else []))
    | none => (none, [])
  match rvth with
  | some p =>
    -- Notify the view that we're about to add rows.
    let bankCount := bankCountOf p
    (some p,
      r1.2 ++ (if bankCount > 0 then [.beginInsertRows 0 (bankCount - 1)] else []) ++
      (if bankCount > 0 then [.endInsertRows] else []))
  | none => r1

/-- The members of `QRvtHToolWindowPrivate` that `openRvtH` and `closeRvtH`
assign, with the pointer held by the model and the addresses of the `RvtH`
objects that exist. A pointer is the address of its object; `none` is the
null pointer. The two update functions write to the widgets only. -/
structure QRvtHToolWindowPrivate where
  /-- The member `rvth`. -/
  rvth : Option Nat
  /-- The member `rvth` of the private part of `model`. -/
  model_rvth : Option Nat
  filename : String
  displayFilename : String
  /-- Addresses of the `RvtH` objects created by `new` and not yet deleted. -/
  live : List Nat
  deriving DecidableEq, Repr

/-- The method `QRvtHToolWindow::openRvtH`. The parameter `new_rvth` is the
value of the expression `new RvtH(filename, nullptr)`. -/
def openRvtH (bankCountOf : Nat → Int) (d : QRvtHToolWindowPrivate) (filename : String)
    (new_rvth : Option Nat) : QRvtHToolWindowPrivate × List WindowEffect :=
  -- if (d->rvth) { d->model->setRvtH(nullptr); delete d->rvth; }
  let closed : QRvtHToolWindowPrivate × List WindowEffect :=
    match d.rvth with
    | some old =>
      let r := setRvtH bankCountOf d.model_rvth none
      ({ d with model_rvth := r.1, live := d.live.filter (fun a => a != old) },
        r.2 ++ [.delete_rvth old])
    | none => (d, [])
  -- Open the specified RVT-H Reader disk image.
  match new_rvth with
  | none =>
    -- FIXME: Show an error message?
    ({ closed.1 with rvth := none }, closed.2)
  | some p =>
    let r := setRvtH bankCountOf closed.1.model_rvth (some p)
    ({ rvth := some p, model_rvth := r.1, filename := filename,
       displayFilename := displayFilenameOf filename, live := p :: closed.1.live },
      closed.2 ++ r.2 ++ [.updateLstBankList, .updateWindowTitle])

/-- The method `QRvtHToolWindow::closeRvtH`. -/
def closeRvtH (bankCountOf : Nat → Int) (d : QRvtHToolWindowPrivate) :
    QRvtHToolWindowPrivate × List WindowEffect :=
  match d.rvth with
  | none =>
    -- Not open...
    (d, [])
  | some old =>
    let r := setRvtH bankCountOf d.model_rvth none
    ({ rvth := none, model_rvth := r.1, filename := "", displayFilename := "",
       live := d.live.filter (fun a => a != old) },
      r.2 ++ [.delete_rvth old, .updateLstBankList, .updateWindowTitle])

/-- The members of a `QRvtHToolWindowPrivate` as its constructor leaves them:
no image (`rvth(nullptr)`), a new model without image, empty filenames. -/
def initialWindow : QRvtHToolWindowPrivate :=
  ⟨none, none, "", "", []⟩

/-- The states that `closeRvtH` passes through, one after each of its
statements that assigns a member or deletes the image (none when nothing is
open). -/
def closeRvtH_states (bankCountOf : Nat → Int) (d : QRvtHToolWindowPrivate) :
    List QRvtHToolWindowPrivate :=
  match d.rvth with
  | none => []
  | some old =>
    -- d->model->setRvtH(nullptr);
    let d1 := { d with model_rvth := (setRvtH bankCountOf d.model_rvth none).1 }
    -- delete d->rvth;
    let d2 := { d1 with live := d1.live.filter (fun a => a != old) }
    -- d->rvth = nullptr;
    let d3 := { d2 with rvth := none }
    -- d->filename.clear();
    let d4 := { d3 with filename := "" }
    -- d->displayFilename.clear();
    let d5 := { d4 with displayFilename := "" }
    [d1, d2, d3, d4, d5]

/-- The states that `openRvtH` passes through, one after each of its
statements that assigns a member or deletes the image. -/
def openRvtH_states (bankCountOf : Nat → Int) (d : QRvtHToolWindowPrivate) (filename : String)
    (new_rvth : Option Nat) : List QRvtHToolWindowPrivate :=
  -- if (d->rvth) { d->model->setRvtH(nullptr); delete d->rvth; }
  let d1 : QRvtHToolWindowPrivate :=
    match d.rvth with
    | some _ => { d with model_rvth := (setRvtH bankCountOf d.model_rvth none).1 }
    | none => d
  let d2 : QRvtHToolWindowPrivate :=
    match d.rvth with
    | some old => { d1 with live := d1.live.filter (fun a => a != old) }
    | none => d1
  let closing : List QRvtHToolWindowPrivate :=
    match d.rvth with
    | some _ => [d1, d2]
    | none => []
  match new_rvth with
  | none =>
    -- d->rvth = new RvtH(...) gave a null pointer; return.
    closing ++ [{ d2 with rvth := none }]
  | some p =>
    -- d->rvth = new RvtH(...);
    let d3 := { d2 with rvth := some p, live := p :: d2.live }
    -- d->filename = filename;
    let d4 := { d3 with filename := filename }
    -- d->model->setRvtH(d->rvth);
    let d5 := { d4 with model_rvth := (setRvtH bankCountOf d4.model_rvth d4.rvth).1 }
    -- d->displayFilename = filename;
    let d6 := { d5 with displayFilename := filename }
    -- the removal of the directory, lines 273-297
    let d7 := { d6 with displayFilename := displayFilenameOf filename }
    closing ++ [d3, d4, d5, d6, d7]

/-- A call of one of the two methods on the window; `new_rvth` is the value
that `new RvtH` yields in that call of `openRvtH`. -/
inductive WindowCall where
  | openRvtH (filename : String) (new_rvth : Option Nat)
  | closeRvtH
  deriving DecidableEq, Repr

/-- Whether `new RvtH` yields an object in this call. In C++ a `new`
expression of this form does not yield a null pointer. -/
def WindowCall.newYieldsObject : WindowCall → Bool
  | .openRvtH _ new_rvth => new_rvth.isSome
  | .closeRvtH => true

/-- The state of the window after the call. -/
def WindowCall.run (bankCountOf : Nat → Int) (d : QRvtHToolWindowPrivate) :
    WindowCall → QRvtHToolWindowPrivate
  | .openRvtH filename new_rvth => (RvtHTool.openRvtH bankCountOf d filename new_rvth).1
  | .closeRvtH => (RvtHTool.closeRvtH bankCountOf d).1

/-- The states the window passes through during the call. -/
def WindowCall.states (bankCountOf : Nat → Int) (d : QRvtHToolWindowPrivate) :
    WindowCall → List QRvtHToolWindowPrivate
  | .openRvtH filename new_rvth => openRvtH_states bankCountOf d filename new_rvth
  | .closeRvtH => closeRvtH_states bankCountOf d

/-- The state of the window after a sequence of calls. -/
def runCalls (bankCountOf : Nat → Int) (d : QRvtHToolWindowPrivate) :
    List WindowCall → QRvtHToolWindowPrivate
  | [] => d
  | c :: cs => runCalls bankCountOf (c.run bankCountOf d) cs

/-- Every state the window passes through during a sequence of calls,
starting with `d`. -/
def statesOfCalls (bankCountOf : Nat → Int) (d : QRvtHToolWindowPrivate) :
    List WindowCall → List QRvtHToolWindowPrivate
  | [] => [d]
  | c :: cs =>
    d :: (c.states bankCountOf d ++ statesOfCalls bankCountOf (c.run bankCountOf d) cs)

/-- The model's pointer, when set, is the window's pointer and the address of
an object that exists. -/
def modelRefersToOpenImage (d : QRvtHToolWindowPrivate) : Prop :=
  ∀ p, d.model_rvth = some p → d.rvth = some p ∧ p ∈ d.live

/-- With no image open, the model has none and both filenames are empty. -/
def clearedWhenClosed (d : QRvtHToolWindowPrivate) : Prop :=
  d.rvth = none → d.model_rvth = none ∧ d.filename = "" ∧ d.displayFilename = ""

/-! ## Sample inputs -/

/-- An RVT-H Reader with eight banks whose library calls return the given
codes. -/
def eightBanks (extract_ret import_ret : Int) : RvtH :=
  ⟨8, true, fun _ _ _ _ => extract_ret, fun _ _ => import_ret⟩

/-- A standalone disc image: one bank, not an HDD image. -/
def oneBank (extract_ret : Int) : RvtH :=
  ⟨1, false, fun _ _ _ _ => extract_ret, fun _ _ => 0⟩

/-- An LP64 environment in which `new RvtH` yields the pointer `rvth` and
stores `ret`. -/
def lp64Env (rvth : Option RvtH) (ret : Int) : Env :=
  ⟨18446744073709551615, fun _ => (rvth, ret), fun r => "error " ++ toString r⟩

/-- Enumerator values for the examples: the columns numbered in the order of
the `switch` of `headerData`, the role `Qt::UserRole`, and the regions and
crypto types numbered from 0. -/
def sampleEnums : RvtHModelEnums where
  COL_BANKNUM := 0
  COL_ICON := 1
  COL_TITLE := 2
  COL_GAMEID := 3
  COL_DISCNUM := 4
  COL_REVISION := 5
  COL_REGION := 6
  COL_IOS_VERSION := 7
  COL_ENCRYPTION := 8
  COL_SIG_TICKET := 9
  COL_SIG_TMD := 10
  COL_APPLOADER := 11
  COL_MAX := 12
  DualLayerRole := 256
  GCN_REGION_JAPAN := 0
  GCN_REGION_USA := 1
  GCN_REGION_PAL := 2
  GCN_REGION_FREE := 3
  GCN_REGION_SOUTH_KOREA := 4
  RVTH_CryptoType_Unknown := 0
  RVTH_CryptoType_None := 1
  RVTH_CryptoType_Debug := 2
  RVTH_CryptoType_Retail := 3
  RVTH_CryptoType_Korean := 4
  columns_distinct := by decide
  roles_distinct := by decide
  regions_distinct := by decide
  cryptos_distinct := by decide

/-- A bank entry of the given type and crypto type, IOS 36, USA region. -/
def sampleEntry (type : RvtH_BankType_e) (crypto_type : Nat) : RvtH_BankEntry :=
  ⟨type, ⟨[82, 86, 84, 69, 48, 49], 0, 0, [84, 101, 115, 116, 32, 32]⟩, 1, crypto_type, 36,
    false⟩

/-- An image with four banks: a dual-layer Wii game in banks 1 and 2, a
GameCube game in bank 3, bank 4 empty. -/
def sampleBanks : RvtHBanks :=
  ⟨4, fun bank =>
    if bank = 0 then some (sampleEntry .RVTH_BankType_Wii_DL 3)
    else if bank = 1 then some (sampleEntry .RVTH_BankType_Wii_DL_Bank2 0)
    else if bank = 2 then some (sampleEntry .RVTH_BankType_GCN 1)
    else if bank = 3 then some (sampleEntry .RVTH_BankType_Empty 1)
    else none⟩

/-- A model showing `sampleBanks`. -/
def sampleModel : RvtHModelPrivate :=
  ⟨some sampleBanks, ⟨⟨1⟩, ⟨2⟩⟩⟩

/-- A translation into German of the four names of the encryption column;
every other text is left as it is. -/
def sampleTr (s : String) : String :=
  if s = "None" then "Keine" else if s = "Retail" then "Verkauf" else s

/-! ## Properties of `extract` and `import` -/

/-- Unfolds `extract` after `new RvtH` gave a non-null pointer. -/
theorem extract_of_open (env : Env) (rvth : RvtH) (r0 : Int)
    (rvth_filename : String) (s_bank : Option String) (gcm_filename : String)
    (recrypt_key : Int) (flags : Nat)
    (hopen : env.newRvtH rvth_filename = (some rvth, r0)) :
    extract env rvth_filename s_bank gcm_filename recrypt_key flags =
      match extract_select_bank env rvth s_bank with
      | .error msgs => (-EINVAL, msgs ++ [.delete_rvth])
      | .ok bank => extract_bank env rvth bank gcm_filename recrypt_key flags := by
  unfold extract
  rw [hopen]

/-- Unfolds `import` after `new RvtH` gave a non-null pointer. -/
theorem import_of_open (env : Env) (rvth : RvtH) (r0 : Int)
    (rvth_filename s_bank gcm_filename : String)
    (hopen : env.newRvtH rvth_filename = (some rvth, r0)) :
    import_ env rvth_filename s_bank gcm_filename =
      match import_select_bank env rvth s_bank with
      | .error msgs => (-EINVAL, msgs ++ [.delete_rvth])
      | .ok bank => import_bank env rvth bank gcm_filename := by
  unfold import_
  rw [hopen]

/-- Subtracting one from a non-zero `unsigned int` does not wrap. -/
theorem uint_pred_of_pos (n : Nat) (h1 : 1 ≤ n) (hn : n < UINT_MOD) :
    (n % UINT_MOD + UINT_MOD - 1) % UINT_MOD = n - 1 := by
  unfold UINT_MOD at *
  omega

/-- Subtracting one from zero in `unsigned int` gives `UINT_MAX`. -/
theorem uint_pred_zero : (0 % UINT_MOD + UINT_MOD - 1) % UINT_MOD = 4294967295 := by
  decide

/-- The bank computed from a string whose conversion gives `n`. -/
theorem parse_bank_of_tcstoul (env : Env) (s_bank : String) (n : Nat) (endptr : List Char)
    (hparse : _tcstoul env.ULONG_MAX s_bank.data = (n, endptr)) :
    parse_bank env s_bank = ((n % UINT_MOD + UINT_MOD - 1) % UINT_MOD, endptr) := by
  simp [parse_bank, hparse]

/-- The trace of `extract_bank` has exactly one library call. -/
theorem extract_bank_calls (env : Env) (rvth : RvtH) (bank : Nat) (gcm_filename : String)
    (recrypt_key : Int) (flags : Nat) :
    (extract_bank env rvth bank gcm_filename recrypt_key flags).2.filter Effect.isLibraryCall
      = [.rvth_extract bank gcm_filename recrypt_key flags] := by
  unfold extract_bank
  by_cases h : rvth.extract bank gcm_filename recrypt_key flags = 0 <;>
    simp [h, Effect.isLibraryCall, List.filter]

/-- The trace of `import_bank` has exactly one library call. -/
theorem import_bank_calls (env : Env) (rvth : RvtH) (bank : Nat) (gcm_filename : String) :
    (import_bank env rvth bank gcm_filename).2.filter Effect.isLibraryCall
      = [.rvth_import bank gcm_filename] := by
  unfold import_bank
  by_cases h : rvth.import_ bank gcm_filename = 0 <;>
    simp [h, Effect.isLibraryCall, List.filter]

/-- Claim C1, evaluated where it fails: on an image with eight banks the
bank number "9" (one past the last bank) is not rejected. The test
`bank > bankCount` lets the zero-based index 8 through, so `extract` and
`import` each call the library with bank 8 and return the library's code
instead of `-EINVAL`. -/
theorem extract_import_accept_bank_past_last (extract_ret import_ret : Int)
    (gcm_filename : String) (recrypt_key : Int) (flags : Nat) :
    extract_select_bank (lp64Env (some (eightBanks extract_ret import_ret)) 0)
        (eightBanks extract_ret import_ret) (some "9") = .ok 8
    ∧ (extract (lp64Env (some (eightBanks extract_ret import_ret)) 0) "rvth.img" (some "9")
        gcm_filename recrypt_key flags).1 = extract_ret
    ∧ (extract (lp64Env (some (eightBanks extract_ret import_ret)) 0) "rvth.img" (some "9")
        gcm_filename recrypt_key flags).2.filter Effect.isLibraryCall
        = [.rvth_extract 8 gcm_filename recrypt_key flags]
    ∧ (import_ (lp64Env (some (eightBanks extract_ret import_ret)) 0) "rvth.img" "9"
        gcm_filename).1 = import_ret
    ∧ (import_ (lp64Env (some (eightBanks extract_ret import_ret)) 0) "rvth.img" "9"
        gcm_filename).2.filter Effect.isLibraryCall = [.rvth_import 8 gcm_filename] := by
  have h9 : _tcstoul 18446744073709551615 "9".data = (9, []) := by decide
  have hp : parse_bank (lp64Env (some (eightBanks extract_ret import_ret)) 0) "9" = (8, []) := by
    rw [parse_bank_of_tcstoul _ "9" 9 [] h9]
    rfl
  have hacc : bank_rejected (eightBanks extract_ret import_ret) 8 [] = false := rfl
  have hsel : extract_select_bank (lp64Env (some (eightBanks extract_ret import_ret)) 0)
      (eightBanks extract_ret import_ret) (some "9") = .ok 8 := by
    simp [extract_select_bank, hp, hacc]
  have hsel2 : import_select_bank (lp64Env (some (eightBanks extract_ret import_ret)) 0)
      (eightBanks extract_ret import_ret) "9" = .ok 8 := by
    simp [import_select_bank, hp, hacc]
  refine ⟨hsel, ?_, ?_, ?_, ?_⟩
  · rw [extract_of_open _ (eightBanks extract_ret import_ret) 0 _ _ _ _ _ rfl, hsel]
    rfl
  · rw [extract_of_open _ (eightBanks extract_ret import_ret) 0 _ _ _ _ _ rfl, hsel]
    exact extract_bank_calls _ _ _ _ _ _
  · rw [import_of_open _ (eightBanks extract_ret import_ret) 0 _ _ _ rfl, hsel2]
    rfl
  · rw [import_of_open _ (eightBanks extract_ret import_ret) 0 _ _ _ rfl, hsel2]
    exact import_bank_calls _ _ _ _

/-- What the validation does reject: a bank string that converts completely
to a number `n` with `bankCount + 1 < n < 2^32` makes both commands return
`-EINVAL` without a library call. -/
theorem reject_bank_beyond_count_plus_one (env : Env) (rvth : RvtH) (r0 : Int)
    (rvth_filename s_bank gcm_filename : String) (recrypt_key : Int) (flags : Nat)
    (n : Nat) (endptr : List Char)
    (hopen : env.newRvtH rvth_filename = (some rvth, r0))
    (hparse : _tcstoul env.ULONG_MAX s_bank.data = (n, endptr))
    (hn : rvth.bankCount + 1 < n) (hlt : n < UINT_MOD) :
    extract env rvth_filename (some s_bank) gcm_filename recrypt_key flags
        = (-EINVAL, invalid_bank_msg s_bank ++ [.delete_rvth])
    ∧ import_ env rvth_filename s_bank gcm_filename
        = (-EINVAL, invalid_bank_msg s_bank ++ [.delete_rvth]) := by
  have hbank : parse_bank env s_bank = (n - 1, endptr) := by
    rw [parse_bank_of_tcstoul env s_bank n endptr hparse, uint_pred_of_pos n (by omega) hlt]
  have hrej : bank_rejected rvth (n - 1) endptr = true := by
    have : n - 1 > rvth.bankCount := by omega
    simp [bank_rejected, this]
  constructor
  · rw [extract_of_open env rvth r0 _ _ _ _ _ hopen]
    simp [extract_select_bank, hbank, hrej]
  · rw [import_of_open env rvth r0 _ _ _ hopen]
    simp [import_select_bank, hbank, hrej]

/-- With a 64-bit `unsigned long` the conversion to `unsigned int` drops the
high bits: on an eight-bank image the bank string "4294967297" (`2^32 + 1`)
selects bank 0. -/
theorem select_bank_truncates_to_uint (extract_ret import_ret : Int) :
    extract_select_bank (lp64Env (some (eightBanks extract_ret import_ret)) 0)
        (eightBanks extract_ret import_ret) (some "4294967297") = .ok 0
    ∧ import_select_bank (lp64Env (some (eightBanks extract_ret import_ret)) 0)
        (eightBanks extract_ret import_ret) "4294967297" = .ok 0 := by
  have h : _tcstoul 18446744073709551615 "4294967297".data = (4294967297, []) := by decide
  have hp : parse_bank (lp64Env (some (eightBanks extract_ret import_ret)) 0) "4294967297"
      = (0, []) := by
    rw [parse_bank_of_tcstoul _ "4294967297" 4294967297 [] h]
    rfl
  have hacc : bank_rejected (eightBanks extract_ret import_ret) 0 [] = false := rfl
  constructor
  · simp [extract_select_bank, hp, hacc]
  · simp [import_select_bank, hp, hacc]

/-- Claim C2: when the bank string converts completely (`*endptr == 0`) to a
number `n` with `1 ≤ n ≤ bankCount`, `extract` and `import` run their main
part with the zero-based bank `n - 1`: the library is called with `n - 1`,
its code is returned, and the bank number printed, `bank + 1`, is `n`. -/
theorem extract_import_valid_bank_index (env : Env) (rvth : RvtH) (r0 : Int)
    (rvth_filename s_bank gcm_filename : String) (recrypt_key : Int) (flags : Nat)
    (n : Nat) (endptr : List Char)
    (hopen : env.newRvtH rvth_filename = (some rvth, r0))
    (hcount : rvth.bankCount < UINT_MOD)
    (hparse : _tcstoul env.ULONG_MAX s_bank.data = (n, endptr))
    (hend : deref endptr = '\x00')
    (h1 : 1 ≤ n) (hn : n ≤ rvth.bankCount) :
    extract env rvth_filename (some s_bank) gcm_filename recrypt_key flags
        = extract_bank env rvth (n - 1) gcm_filename recrypt_key flags
    ∧ import_ env rvth_filename s_bank gcm_filename
        = import_bank env rvth (n - 1) gcm_filename
    ∧ (extract env rvth_filename (some s_bank) gcm_filename recrypt_key flags).2.filter
        Effect.isLibraryCall = [.rvth_extract (n - 1) gcm_filename recrypt_key flags]
    ∧ (import_ env rvth_filename s_bank gcm_filename).2.filter
        Effect.isLibraryCall = [.rvth_import (n - 1) gcm_filename]
    ∧ Effect.stdout ("Extracting Bank " ++ toString n ++ " into '")
        ∈ (extract env rvth_filename (some s_bank) gcm_filename recrypt_key flags).2
    ∧ Effect.stdout ("' into Bank " ++ toString n ++ "...\n")
        ∈ (import_ env rvth_filename s_bank gcm_filename).2
    ∧ fmt_u (n - 1 + 1) = toString n := by
  have hlt : n < UINT_MOD := Nat.lt_of_le_of_lt hn hcount
  have hbank : parse_bank env s_bank = (n - 1, endptr) := by
    rw [parse_bank_of_tcstoul env s_bank n endptr hparse, uint_pred_of_pos n h1 hlt]
  have hacc : bank_rejected rvth (n - 1) endptr = false := by
    have : ¬ (n - 1 > rvth.bankCount) := by omega
    simp [bank_rejected, hend, this]
  have hsel : extract_select_bank env rvth (some s_bank) = .ok (n - 1) := by
    simp [extract_select_bank, hbank, hacc]
  have hsel2 : import_select_bank env rvth s_bank = .ok (n - 1) := by
    simp [import_select_bank, hbank, hacc]
  have hex : extract env rvth_filename (some s_bank) gcm_filename recrypt_key flags
      = extract_bank env rvth (n - 1) gcm_filename recrypt_key flags := by
    rw [extract_of_open env rvth r0 _ _ _ _ _ hopen, hsel]
  have him : import_ env rvth_filename s_bank gcm_filename
      = import_bank env rvth (n - 1) gcm_filename := by
    rw [import_of_open env rvth r0 _ _ _ hopen, hsel2]
  have hfmt : fmt_u (n - 1 + 1) = toString n := by
    have h2 : n - 1 + 1 = n := by omega
    rw [h2, fmt_u, Nat.mod_eq_of_lt hlt]
  refine ⟨hex, him, ?_, ?_, ?_, ?_, hfmt⟩
  · rw [hex]; exact extract_bank_calls _ _ _ _ _ _
  · rw [him]; exact import_bank_calls _ _ _ _
  · rw [hex, ← hfmt]; simp [extract_bank]
  · rw [him, ← hfmt]; simp [import_bank]

/-- Witness of `extract_import_valid_bank_index`: bank "3" of an eight-bank
image. -/
theorem extract_import_valid_bank_index_witness :
    (lp64Env (some (eightBanks 0 0)) 0).newRvtH "rvth.img" = (some (eightBanks 0 0), 0)
    ∧ _tcstoul (lp64Env (some (eightBanks 0 0)) 0).ULONG_MAX "3".data = (3, [])
    ∧ extract (lp64Env (some (eightBanks 0 0)) 0) "rvth.img" (some "3") "out.gcm" (-1) 0
        = extract_bank (lp64Env (some (eightBanks 0 0)) 0) (eightBanks 0 0) (3 - 1)
            "out.gcm" (-1) 0
    ∧ fmt_u (3 - 1 + 1) = toString 3 :=
  have h := extract_import_valid_bank_index (lp64Env (some (eightBanks 0 0)) 0)
    (eightBanks 0 0) 0 "rvth.img" "3" "out.gcm" (-1) 0 3 [] rfl (by decide) (by decide)
    (by decide) (by decide) (by decide)
  ⟨rfl, by decide, h.1, h.2.2.2.2.2.2⟩

/-- A bank string whose conversion stops before its end is rejected by both
commands, whatever the bank count. -/
theorem reject_unconverted_tail (env : Env) (rvth : RvtH) (r0 : Int)
    (rvth_filename s_bank gcm_filename : String) (recrypt_key : Int) (flags : Nat)
    (v : Nat) (endptr : List Char)
    (hopen : env.newRvtH rvth_filename = (some rvth, r0))
    (hparse : _tcstoul env.ULONG_MAX s_bank.data = (v, endptr))
    (hbad : deref endptr ≠ '\x00') :
    extract env rvth_filename (some s_bank) gcm_filename recrypt_key flags
        = (-22, [.stderr "*** ERROR: Invalid bank number '", .stderr s_bank,
                 .stderr "'.\n", .delete_rvth])
    ∧ import_ env rvth_filename s_bank gcm_filename
        = (-22, [.stderr "*** ERROR: Invalid bank number '", .stderr s_bank,
                 .stderr "'.\n", .delete_rvth]) := by
  have hbank : parse_bank env s_bank = ((v % UINT_MOD + UINT_MOD - 1) % UINT_MOD, endptr) :=
    parse_bank_of_tcstoul env s_bank v endptr hparse
  have hrej : bank_rejected rvth ((v % UINT_MOD + UINT_MOD - 1) % UINT_MOD) endptr = true := by
    simp [bank_rejected, hbad]
  constructor
  · rw [extract_of_open env rvth r0 _ _ _ _ _ hopen]
    simp [extract_select_bank, hbank, hrej, invalid_bank_msg, EINVAL]
  · rw [import_of_open env rvth r0 _ _ _ hopen]
    simp [import_select_bank, hbank, hrej, invalid_bank_msg, EINVAL]

/-- Claim C3: when the conversion of the bank string stops before the end of
the string (`*endptr != 0`), or its value is 0 (as for the empty string),
`extract` and `import` write the "Invalid bank number" message, release the
handle and return `-EINVAL`, with no library call. For the value 0 the bank
`0 - 1` is `2^32 - 1` in `unsigned int`, above every bank count below
`2^32 - 1`. -/
theorem extract_import_reject_malformed_or_zero (env : Env) (rvth : RvtH) (r0 : Int)
    (rvth_filename s_bank gcm_filename : String) (recrypt_key : Int) (flags : Nat)
    (v : Nat) (endptr : List Char)
    (hopen : env.newRvtH rvth_filename = (some rvth, r0))
    (hparse : _tcstoul env.ULONG_MAX s_bank.data = (v, endptr))
    (hbad : deref endptr ≠ '\x00' ∨ (v = 0 ∧ rvth.bankCount < 4294967295)) :
    extract env rvth_filename (some s_bank) gcm_filename recrypt_key flags
        = (-EINVAL, [.stderr "*** ERROR: Invalid bank number '", .stderr s_bank,
                     .stderr "'.\n", .delete_rvth])
    ∧ import_ env rvth_filename s_bank gcm_filename
        = (-EINVAL, [.stderr "*** ERROR: Invalid bank number '", .stderr s_bank,
                     .stderr "'.\n", .delete_rvth])
    ∧ (extract env rvth_filename (some s_bank) gcm_filename recrypt_key flags).2.filter
        Effect.isLibraryCall = []
    ∧ (import_ env rvth_filename s_bank gcm_filename).2.filter Effect.isLibraryCall = []
    ∧ (v = 0 → (parse_bank env s_bank).1 = 4294967295)
    ∧ _tcstoul env.ULONG_MAX "".data = (0, []) := by
  have hbank : parse_bank env s_bank = ((v % UINT_MOD + UINT_MOD - 1) % UINT_MOD, endptr) :=
    parse_bank_of_tcstoul env s_bank v endptr hparse
  have hrej : bank_rejected rvth ((v % UINT_MOD + UINT_MOD - 1) % UINT_MOD) endptr = true := by
    rcases hbad with h | ⟨h0, hc⟩
    · simp [bank_rejected, h]
    · subst h0
      rw [uint_pred_zero]
      simp [bank_rejected, hc]
  have hsel : extract_select_bank env rvth (some s_bank) = .error (invalid_bank_msg s_bank) := by
    simp [extract_select_bank, hbank, hrej]
  have hsel2 : import_select_bank env rvth s_bank = .error (invalid_bank_msg s_bank) := by
    simp [import_select_bank, hbank, hrej]
  have hex : extract env rvth_filename (some s_bank) gcm_filename recrypt_key flags
      = (-EINVAL, [.stderr "*** ERROR: Invalid bank number '", .stderr s_bank,
                   .stderr "'.\n", .delete_rvth]) := by
    rw [extract_of_open env rvth r0 _ _ _ _ _ hopen, hsel]
    rfl
  have him : import_ env rvth_filename s_bank gcm_filename
      = (-EINVAL, [.stderr "*** ERROR: Invalid bank number '", .stderr s_bank,
                   .stderr "'.\n", .delete_rvth]) := by
    rw [import_of_open env rvth r0 _ _ _ hopen, hsel2]
    rfl
  refine ⟨hex, him, ?_, ?_, ?_, rfl⟩
  · rw [hex]; rfl
  · rw [him]; rfl
  · intro h0
    subst h0
    rw [hbank]
    exact uint_pred_zero

/-- Witness of `extract_import_reject_malformed_or_zero`: the bank string
"0" on an eight-bank image. -/
theorem extract_import_reject_malformed_or_zero_witness :
    (lp64Env (some (eightBanks 0 0)) 0).newRvtH "rvth.img" = (some (eightBanks 0 0), 0)
    ∧ _tcstoul (lp64Env (some (eightBanks 0 0)) 0).ULONG_MAX "0".data = (0, [])
    ∧ (0 = 0 ∧ (eightBanks 0 0).bankCount < 4294967295)
    ∧ extract (lp64Env (some (eightBanks 0 0)) 0) "rvth.img" (some "0") "out.gcm" (-1) 0
        = (-EINVAL, [.stderr "*** ERROR: Invalid bank number '", .stderr "0",
                     .stderr "'.\n", .delete_rvth])
    ∧ import_ (lp64Env (some (eightBanks 0 0)) 0) "rvth.img" "0" "in.gcm"
        = (-EINVAL, [.stderr "*** ERROR: Invalid bank number '", .stderr "0",
                     .stderr "'.\n", .delete_rvth]) :=
  ⟨rfl, by decide, by decide,
   (extract_import_reject_malformed_or_zero (lp64Env (some (eightBanks 0 0)) 0)
      (eightBanks 0 0) 0 "rvth.img" "0" "out.gcm" (-1) 0 0 [] rfl (by decide)
      (Or.inr (by decide))).1,
   (extract_import_reject_malformed_or_zero (lp64Env (some (eightBanks 0 0)) 0)
      (eightBanks 0 0) 0 "rvth.img" "0" "in.gcm" (-1) 0 0 [] rfl (by decide)
      (Or.inr (by decide))).2.1⟩

/-- Claim C4: `extract` without a bank string. On an image with exactly one
bank it runs its main part with bank 0, printed as bank 1: the library is
called with bank 0 and its code is returned. For every other bank count it
returns `-EINVAL` and its trace has no library call. -/
theorem extract_without_bank_string (env : Env) (rvth : RvtH) (r0 : Int)
    (rvth_filename gcm_filename : String) (recrypt_key : Int) (flags : Nat)
    (hopen : env.newRvtH rvth_filename = (some rvth, r0)) :
    (rvth.bankCount = 1 →
      extract env rvth_filename none gcm_filename recrypt_key flags
          = extract_bank env rvth 0 gcm_filename recrypt_key flags
      ∧ (extract env rvth_filename none gcm_filename recrypt_key flags).1
          = rvth.extract 0 gcm_filename recrypt_key flags
      ∧ (extract env rvth_filename none gcm_filename recrypt_key flags).2.filter
          Effect.isLibraryCall = [.rvth_extract 0 gcm_filename recrypt_key flags]
      ∧ Effect.stdout "Extracting Bank 1 into '"
          ∈ (extract env rvth_filename none gcm_filename recrypt_key flags).2)
    ∧ (rvth.bankCount ≠ 1 →
      extract env rvth_filename none gcm_filename recrypt_key flags
          = (-EINVAL,
              [.stderr ("*** ERROR: Must specify a bank number for this RVT-H Reader" ++
                  (if rvth.isHDD then "" else " disk image") ++ ".\n"),
               .delete_rvth])
      ∧ (extract env rvth_filename none gcm_filename recrypt_key flags).2.filter
          Effect.isLibraryCall = []) := by
  constructor
  · intro h1
    have hsel : extract_select_bank env rvth none = .ok 0 := by
      simp [extract_select_bank, h1]
    have hex : extract env rvth_filename none gcm_filename recrypt_key flags
        = extract_bank env rvth 0 gcm_filename recrypt_key flags := by
      rw [extract_of_open env rvth r0 _ _ _ _ _ hopen, hsel]
    refine ⟨hex, ?_, ?_, ?_⟩
    · rw [hex]; rfl
    · rw [hex]; exact extract_bank_calls _ _ _ _ _ _
    · rw [hex]
      have hfmt : fmt_u (0 + 1) = "1" := by decide
      simp [extract_bank, hfmt]
  · intro h1
    have hsel : extract_select_bank env rvth none
        = .error [.stderr ("*** ERROR: Must specify a bank number for this RVT-H Reader" ++
            (if rvth.isHDD then "" else " disk image") ++ ".\n")] := by
      simp [extract_select_bank, h1]
    have hex : extract env rvth_filename none gcm_filename recrypt_key flags
        = (-EINVAL,
            [.stderr ("*** ERROR: Must specify a bank number for this RVT-H Reader" ++
                (if rvth.isHDD then "" else " disk image") ++ ".\n"),
             .delete_rvth]) := by
      rw [extract_of_open env rvth r0 _ _ _ _ _ hopen, hsel]
      rfl
    refine ⟨hex, ?_⟩
    rw [hex]; rfl

/-- Witness of `extract_without_bank_string`: a standalone disc image (one
bank) is extracted as bank 0, and an eight-bank image is refused. -/
theorem extract_without_bank_string_witness :
    ((lp64Env (some (oneBank 0)) 0).newRvtH "disc.gcm" = (some (oneBank 0), 0)
      ∧ (oneBank 0).bankCount = 1
      ∧ extract (lp64Env (some (oneBank 0)) 0) "disc.gcm" none "out.gcm" (-1) 0
          = extract_bank (lp64Env (some (oneBank 0)) 0) (oneBank 0) 0 "out.gcm" (-1) 0)
    ∧ ((lp64Env (some (eightBanks 0 0)) 0).newRvtH "rvth.img" = (some (eightBanks 0 0), 0)
      ∧ (eightBanks 0 0).bankCount ≠ 1
      ∧ (extract (lp64Env (some (eightBanks 0 0)) 0) "rvth.img" none "out.gcm" (-1) 0).2.filter
          Effect.isLibraryCall = []) :=
  ⟨⟨rfl, rfl,
     ((extract_without_bank_string (lp64Env (some (oneBank 0)) 0) (oneBank 0) 0
        "disc.gcm" "out.gcm" (-1) 0 rfl).1 rfl).1⟩,
   ⟨rfl, by decide,
     ((extract_without_bank_string (lp64Env (some (eightBanks 0 0)) 0) (eightBanks 0 0) 0
        "rvth.img" "out.gcm" (-1) 0 rfl).2 (by decide)).2⟩⟩

/-- The branch taken when `new RvtH` gives a null pointer: both commands
write the "ERROR opening" message and return the stored code `ret`. -/
theorem extract_import_null_pointer (env : Env) (ret : Int)
    (rvth_filename : String) (s_bank : Option String) (s_bank2 gcm_filename : String)
    (recrypt_key : Int) (flags : Nat)
    (hopen : env.newRvtH rvth_filename = (none, ret)) :
    extract env rvth_filename s_bank gcm_filename recrypt_key flags
        = (ret, open_error_msg env rvth_filename ret)
    ∧ import_ env rvth_filename s_bank2 gcm_filename
        = (ret, open_error_msg env rvth_filename ret) := by
  constructor
  · unfold extract
    rw [hopen]
  · unfold import_
    rw [hopen]

/-- Claim C5, evaluated where it fails: the constructor reports a failed
open by storing `-2` (`-ENOENT`) in `ret`, while `new` still yields an object.
The commands only test the pointer, so they go on to validate the bank string:
for the bank string "x" they return `-EINVAL`, not the stored code, and for an
object that reports no banks the bank string "1" even reaches the library
call. -/
theorem extract_import_ignore_open_error (rvth : RvtH) (extract_ret import_ret : Int)
    (gcm_filename : String) (recrypt_key : Int) (flags : Nat) :
    extract (lp64Env (some rvth) (-2)) "missing.img" (some "x") gcm_filename recrypt_key flags
        = (-22, [.stderr "*** ERROR: Invalid bank number '", .stderr "x",
                 .stderr "'.\n", .delete_rvth])
    ∧ import_ (lp64Env (some rvth) (-2)) "missing.img" "x" gcm_filename
        = (-22, [.stderr "*** ERROR: Invalid bank number '", .stderr "x",
                 .stderr "'.\n", .delete_rvth])
    ∧ (extract (lp64Env (some ⟨0, false, fun _ _ _ _ => extract_ret, fun _ _ => import_ret⟩) (-2))
        "missing.img" (some "1") gcm_filename recrypt_key flags).2.filter Effect.isLibraryCall
        = [.rvth_extract 0 gcm_filename recrypt_key flags]
    ∧ (import_ (lp64Env (some ⟨0, false, fun _ _ _ _ => extract_ret, fun _ _ => import_ret⟩) (-2))
        "missing.img" "1" gcm_filename).2.filter Effect.isLibraryCall
        = [.rvth_import 0 gcm_filename] := by
  have hx : _tcstoul 18446744073709551615 "x".data = (0, ['x']) := by decide
  have h1 : _tcstoul 18446744073709551615 "1".data = (1, []) := by decide
  have hne : deref ['x'] ≠ '\x00' := by decide
  refine ⟨?_, ?_, ?_, ?_⟩
  · exact (reject_unconverted_tail (lp64Env (some rvth) (-2)) rvth (-2)
      "missing.img" "x" gcm_filename recrypt_key flags 0 ['x'] rfl hx hne).1
  · exact (reject_unconverted_tail (lp64Env (some rvth) (-2)) rvth (-2)
      "missing.img" "x" gcm_filename recrypt_key flags 0 ['x'] rfl hx hne).2
  · have hp : parse_bank
        (lp64Env (some ⟨0, false, fun _ _ _ _ => extract_ret, fun _ _ => import_ret⟩) (-2)) "1"
        = (0, []) := by
      rw [parse_bank_of_tcstoul _ "1" 1 [] h1]; rfl
    rw [extract_of_open _ ⟨0, false, fun _ _ _ _ => extract_ret, fun _ _ => import_ret⟩ (-2)
      _ _ _ _ _ rfl]
    have hsel : extract_select_bank
        (lp64Env (some ⟨0, false, fun _ _ _ _ => extract_ret, fun _ _ => import_ret⟩) (-2))
        ⟨0, false, fun _ _ _ _ => extract_ret, fun _ _ => import_ret⟩ (some "1") = .ok 0 := by
      simp [extract_select_bank, hp, bank_rejected, deref]
    rw [hsel]
    exact extract_bank_calls _ _ _ _ _ _
  · have hp : parse_bank
        (lp64Env (some ⟨0, false, fun _ _ _ _ => extract_ret, fun _ _ => import_ret⟩) (-2)) "1"
        = (0, []) := by
      rw [parse_bank_of_tcstoul _ "1" 1 [] h1]; rfl
    rw [import_of_open _ ⟨0, false, fun _ _ _ _ => extract_ret, fun _ _ => import_ret⟩ (-2)
      _ _ _ rfl]
    have hsel : import_select_bank
        (lp64Env (some ⟨0, false, fun _ _ _ _ => extract_ret, fun _ _ => import_ret⟩) (-2))
        ⟨0, false, fun _ _ _ _ => extract_ret, fun _ _ => import_ret⟩ "1" = .ok 0 := by
      simp [import_select_bank, hp, bank_rejected, deref]
    rw [hsel]
    exact import_bank_calls _ _ _ _

/-- Claim C6: once the bank has passed validation, the command returns the
code of its single library call made with that bank, so it returns 0 exactly
when the library call returned 0; for `extract` and for `import`. -/
theorem extract_import_return_library_code (env : Env) (rvth : RvtH) (r0 : Int)
    (rvth_filename : String) (s_bank : Option String) (s_bank2 gcm_filename : String)
    (recrypt_key : Int) (flags : Nat)
    (hopen : env.newRvtH rvth_filename = (some rvth, r0)) :
    (∀ bank, extract_select_bank env rvth s_bank = .ok bank →
      (extract env rvth_filename s_bank gcm_filename recrypt_key flags).1
          = rvth.extract bank gcm_filename recrypt_key flags
      ∧ (extract env rvth_filename s_bank gcm_filename recrypt_key flags).2.filter
          Effect.isLibraryCall = [.rvth_extract bank gcm_filename recrypt_key flags]
      ∧ ((extract env rvth_filename s_bank gcm_filename recrypt_key flags).1 = 0
          ↔ rvth.extract bank gcm_filename recrypt_key flags = 0))
    ∧ (∀ bank, import_select_bank env rvth s_bank2 = .ok bank →
      (import_ env rvth_filename s_bank2 gcm_filename).1 = rvth.import_ bank gcm_filename
      ∧ (import_ env rvth_filename s_bank2 gcm_filename).2.filter
          Effect.isLibraryCall = [.rvth_import bank gcm_filename]
      ∧ ((import_ env rvth_filename s_bank2 gcm_filename).1 = 0
          ↔ rvth.import_ bank gcm_filename = 0)) := by
  constructor
  · intro bank hsel
    have hex : extract env rvth_filename s_bank gcm_filename recrypt_key flags
        = extract_bank env rvth bank gcm_filename recrypt_key flags := by
      rw [extract_of_open env rvth r0 _ _ _ _ _ hopen, hsel]
    have hret : (extract env rvth_filename s_bank gcm_filename recrypt_key flags).1
        = rvth.extract bank gcm_filename recrypt_key flags := by
      rw [hex]; rfl
    refine ⟨hret, ?_, ?_⟩
    · rw [hex]; exact extract_bank_calls _ _ _ _ _ _
    · rw [hret]
  · intro bank hsel
    have him : import_ env rvth_filename s_bank2 gcm_filename
        = import_bank env rvth bank gcm_filename := by
      rw [import_of_open env rvth r0 _ _ _ hopen, hsel]
    have hret : (import_ env rvth_filename s_bank2 gcm_filename).1
        = rvth.import_ bank gcm_filename := by
      rw [him]; rfl
    refine ⟨hret, ?_, ?_⟩
    · rw [him]; exact import_bank_calls _ _ _ _
    · rw [hret]

/-- Witness of claim C6: bank "2" of an eight-bank image whose library
extract fails with -5 and whose library import succeeds. -/
theorem extract_import_return_library_code_witness :
    (lp64Env (some (eightBanks (-5) 0)) 0).newRvtH "rvth.img" = (some (eightBanks (-5) 0), 0)
    ∧ extract_select_bank (lp64Env (some (eightBanks (-5) 0)) 0) (eightBanks (-5) 0) (some "2")
        = .ok 1
    ∧ import_select_bank (lp64Env (some (eightBanks (-5) 0)) 0) (eightBanks (-5) 0) "2" = .ok 1
    ∧ (extract (lp64Env (some (eightBanks (-5) 0)) 0) "rvth.img" (some "2") "out.gcm" (-1) 0).1
        = (eightBanks (-5) 0).extract 1 "out.gcm" (-1) 0
    ∧ (import_ (lp64Env (some (eightBanks (-5) 0)) 0) "rvth.img" "2" "out.gcm").1
        = (eightBanks (-5) 0).import_ 1 "out.gcm" :=
  have h := extract_import_return_library_code (lp64Env (some (eightBanks (-5) 0)) 0)
    (eightBanks (-5) 0) 0 "rvth.img" (some "2") "2" "out.gcm" (-1) 0 rfl
  ⟨rfl, by decide, by decide, (h.1 1 (by decide)).1, (h.2 1 (by decide)).1⟩

/-- Claim C10: when the library's extract returns a non-zero code, the
effects of `extract` after that call are the error message on `stderr` and
`delete rvth`, nothing else: the destination file is not removed. -/
theorem extract_failure_leaves_destination (env : Env) (rvth : RvtH) (r0 : Int)
    (rvth_filename : String) (s_bank : Option String) (gcm_filename : String)
    (recrypt_key : Int) (flags : Nat) (bank : Nat)
    (hopen : env.newRvtH rvth_filename = (some rvth, r0))
    (hsel : extract_select_bank env rvth s_bank = .ok bank)
    (hfail : rvth.extract bank gcm_filename recrypt_key flags ≠ 0) :
    (extract env rvth_filename s_bank gcm_filename recrypt_key flags).2
        = [.print_bank bank, .stdout "\n",
           .stdout ("Extracting Bank " ++ fmt_u (bank + 1) ++ " into '"),
           .stdout gcm_filename, .stdout "'...\n",
           .rvth_extract bank gcm_filename recrypt_key flags,
           .stderr ("*** ERROR: rvth_extract() failed: " ++
              env.rvth_error (rvth.extract bank gcm_filename recrypt_key flags) ++ "\n"),
           .delete_rvth]
    ∧ effectsAfterCall (extract env rvth_filename s_bank gcm_filename recrypt_key flags).2
        = [.stderr ("*** ERROR: rvth_extract() failed: " ++
              env.rvth_error (rvth.extract bank gcm_filename recrypt_key flags) ++ "\n"),
           .delete_rvth]
    ∧ (∀ filename,
        Effect.remove filename ∉
          (extract env rvth_filename s_bank gcm_filename recrypt_key flags).2)
    ∧ (extract env rvth_filename s_bank gcm_filename recrypt_key flags).1
        = rvth.extract bank gcm_filename recrypt_key flags := by
  have hex : extract env rvth_filename s_bank gcm_filename recrypt_key flags
      = extract_bank env rvth bank gcm_filename recrypt_key flags := by
    rw [extract_of_open env rvth r0 _ _ _ _ _ hopen, hsel]
  have htrace : (extract env rvth_filename s_bank gcm_filename recrypt_key flags).2
      = [.print_bank bank, .stdout "\n",
         .stdout ("Extracting Bank " ++ fmt_u (bank + 1) ++ " into '"),
         .stdout gcm_filename, .stdout "'...\n",
         .rvth_extract bank gcm_filename recrypt_key flags,
         .stderr ("*** ERROR: rvth_extract() failed: " ++
            env.rvth_error (rvth.extract bank gcm_filename recrypt_key flags) ++ "\n"),
         .delete_rvth] := by
    rw [hex]
    simp [extract_bank, hfail]
  refine ⟨htrace, ?_, ?_, ?_⟩
  · rw [htrace]
    simp [effectsAfterCall, List.dropWhile, Effect.isLibraryCall]
  · intro filename
    rw [htrace]
    simp
  · rw [hex]; rfl

/-- Witness of claim C10: extracting bank "2" of an eight-bank image when the
library's extract fails with -5. -/
theorem extract_failure_leaves_destination_witness :
    (lp64Env (some (eightBanks (-5) 0)) 0).newRvtH "rvth.img" = (some (eightBanks (-5) 0), 0)
    ∧ extract_select_bank (lp64Env (some (eightBanks (-5) 0)) 0) (eightBanks (-5) 0) (some "2")
        = .ok 1
    ∧ (eightBanks (-5) 0).extract 1 "out.gcm" (-1) 0 ≠ 0
    ∧ effectsAfterCall
        (extract (lp64Env (some (eightBanks (-5) 0)) 0) "rvth.img" (some "2") "out.gcm" (-1) 0).2
        = [.stderr ("*** ERROR: rvth_extract() failed: " ++
              (lp64Env (some (eightBanks (-5) 0)) 0).rvth_error
                ((eightBanks (-5) 0).extract 1 "out.gcm" (-1) 0) ++ "\n"),
           .delete_rvth] :=
  ⟨rfl, by decide, by decide,
   (extract_failure_leaves_destination (lp64Env (some (eightBanks (-5) 0)) 0)
      (eightBanks (-5) 0) 0 "rvth.img" (some "2") "out.gcm" (-1) 0 1 rfl (by decide)
      (by decide)).2.1⟩

/-! ## Properties of `hashw_sha1` -/

/-- Every value `hashw_sha1` can return is `-EINVAL` or `-ENOSYS`, and the
`hash` buffer is as before. -/
theorem hashw_sha1_returned (NDEBUG : Bool) (hash data : Option (List Nat)) (size : Nat)
    (r : Int) (buf : Option (List Nat))
    (h : hashw_sha1 NDEBUG hash data size = .returned (r, buf)) :
    (r = -EINVAL ∨ r = -ENOSYS) ∧ buf = hash := by
  unfold hashw_sha1 at h
  split_ifs at h <;> simp_all

/-- Claim C7: with a non-null `hash`, a non-null `data` and `size != 0`,
`hashw_sha1` returns `-ENOSYS`, which is not 0, and the `hash` buffer holds
what it held before, with assertions compiled in or out. On no input at all
does the function return 0. -/
theorem hashw_sha1_not_implemented (NDEBUG : Bool) (hash data : List Nat) (size : Nat)
    (hsize : size ≠ 0) :
    hashw_sha1 NDEBUG (some hash) (some data) size = .returned (-ENOSYS, some hash)
    ∧ -ENOSYS ≠ 0
    ∧ (∀ (ndebug : Bool) (h d buf : Option (List Nat)) (n : Nat),
        hashw_sha1 ndebug h d n ≠ .returned (0, buf)) := by
  refine ⟨?_, by decide, ?_⟩
  · simp [hashw_sha1, hsize]
  · intro ndebug h d buf n hret
    have hr := (hashw_sha1_returned ndebug h d n 0 buf hret).1
    rcases hr with hr | hr
    · exact absurd hr (by decide)
    · exact absurd hr (by decide)

/-- Witness of claim C7: hashing three bytes into a 20-byte buffer. -/
theorem hashw_sha1_not_implemented_witness :
    3 ≠ 0
    ∧ hashw_sha1 false (some (List.replicate 20 0)) (some [1, 2, 3]) 3
        = .returned (-ENOSYS, some (List.replicate 20 0)) :=
  ⟨by decide,
   (hashw_sha1_not_implemented false (List.replicate 20 0) [1, 2, 3] 3 (by decide)).1⟩

/-- Claim C8 as stated fails when assertions are compiled in: called with a
null `hash`, `hashw_sha1` stops at `assert(hash != NULL)` and returns nothing,
in particular not `-EINVAL`. -/
theorem hashw_sha1_null_hash_asserts :
    hashw_sha1 false none (some [1, 2, 3]) 3 = .assertFailed
    ∧ ¬ ((none : Option (List Nat)) = none ∨ some [1, 2, 3] = none ∨ 3 = 0 →
          ∃ buf, hashw_sha1 false none (some [1, 2, 3]) 3 = .returned (-EINVAL, buf)) := by
  refine ⟨rfl, ?_⟩
  intro h
  obtain ⟨buf, hbuf⟩ := h (Or.inl rfl)
  exact absurd hbuf (by simp [hashw_sha1])

/-- Claim C8, amended: with assertions compiled out, `hashw_sha1` returns
`-EINVAL` exactly when `hash` is null, `data` is null or `size` is 0, and
`-ENOSYS` otherwise; with assertions compiled in, it fails an assertion on
exactly those inputs. Whenever it returns, the result is negative. -/
theorem hashw_sha1_invalid_parameters (hash data : Option (List Nat)) (size : Nat) :
    ((∃ buf, hashw_sha1 true hash data size = .returned (-EINVAL, buf))
        ↔ (hash = none ∨ data = none ∨ size = 0))
    ∧ (hashw_sha1 false hash data size = .assertFailed
        ↔ (hash = none ∨ data = none ∨ size = 0))
    ∧ (∃ r, hashw_sha1 true hash data size = .returned (r, hash) ∧ r < 0)
    ∧ (∀ (NDEBUG : Bool) (r : Int) (buf : Option (List Nat)),
        hashw_sha1 NDEBUG hash data size = .returned (r, buf) → r < 0) := by
  have hneg : ∀ (NDEBUG : Bool) (r : Int) (buf : Option (List Nat)),
      hashw_sha1 NDEBUG hash data size = .returned (r, buf) → r < 0 := by
    intro NDEBUG r buf hret
    rcases (hashw_sha1_returned NDEBUG hash data size r buf hret).1 with hr | hr
    · rw [hr]; decide
    · rw [hr]; decide
  refine ⟨?_, ?_, ?_, hneg⟩
  · cases hash <;> cases data <;> by_cases hs : size = 0 <;>
      simp [hashw_sha1, hs, EINVAL, ENOSYS]
  · cases hash <;> cases data <;> by_cases hs : size = 0 <;>
      simp [hashw_sha1, hs]
  · by_cases hbad : hash.isNone || data.isNone || size == 0
    · exact ⟨-EINVAL, by simp [hashw_sha1, hbad], by decide⟩
    · exact ⟨-ENOSYS, by simp [hashw_sha1, hbad], by decide⟩

/-- Witness of amended claim C8: a call whose result is `-EINVAL` (null
`data`, assertions compiled out), which is negative. -/
theorem hashw_sha1_invalid_parameters_witness :
    hashw_sha1 true (some [0]) none 4 = .returned (-EINVAL, some [0])
    ∧ -EINVAL < 0 :=
  ⟨by decide,
   (hashw_sha1_invalid_parameters (some [0]) none 4).2.2.2 true (-EINVAL) (some [0])
      (by decide)⟩

/-! ## Properties of `progress_callback` -/

/-- A state of kind Extract, Import or Recrypt makes the callback return
`true`. -/
theorem progress_finish_true (state : RvtH_Progress_State) (printed : List Effect) :
    ∃ out, progress_finish state printed = .returned (true, out) :=
  ⟨_, rfl⟩

/-- Claim C9 as stated fails when assertions are compiled in: for a kind
other than Extract, Import and Recrypt the callback stops at `assert(false)`
and does not return `false`. -/
theorem progress_callback_other_kind_asserts :
    progress_callback false ⟨.other 0, 0, 0⟩ = .assertFailed
    ∧ ¬ ∃ out, progress_callback false ⟨.other 0, 0, 0⟩ = .returned (false, out) := by
  refine ⟨rfl, ?_⟩
  rintro ⟨out, hout⟩
  exact absurd hout (by simp [progress_callback])

/-- Claim C9, amended: the callback returns `true` exactly when the kind is
Extract, Import or Recrypt, whatever `lba_processed` and `lba_total` are and
with assertions compiled in or out. For any other kind it returns `false`,
having written nothing, when assertions are compiled out, and fails
`assert(false)` when they are compiled in. -/
theorem progress_callback_continue_iff (NDEBUG : Bool) (state : RvtH_Progress_State) :
    ((∃ out, progress_callback NDEBUG state = .returned (true, out))
        ↔ (state.type = .RVTH_PROGRESS_EXTRACT ∨ state.type = .RVTH_PROGRESS_IMPORT
            ∨ state.type = .RVTH_PROGRESS_RECRYPT))
    ∧ (state.type ≠ .RVTH_PROGRESS_EXTRACT → state.type ≠ .RVTH_PROGRESS_IMPORT
        → state.type ≠ .RVTH_PROGRESS_RECRYPT →
        progress_callback true state = .returned (false, [])
        ∧ progress_callback false state = .assertFailed) := by
  obtain ⟨type, lba_processed, lba_total⟩ := state
  cases type with
  | RVTH_PROGRESS_EXTRACT =>
    exact ⟨⟨fun _ => Or.inl rfl, fun _ => progress_finish_true _ _⟩,
      fun h _ _ => absurd rfl h⟩
  | RVTH_PROGRESS_IMPORT =>
    exact ⟨⟨fun _ => Or.inr (Or.inl rfl), fun _ => progress_finish_true _ _⟩,
      fun _ h _ => absurd rfl h⟩
  | RVTH_PROGRESS_RECRYPT =>
    refine ⟨⟨fun _ => Or.inr (Or.inr rfl), fun _ => ?_⟩, fun _ _ h => absurd rfl h⟩
    simp only [progress_callback]
    split_ifs <;> exact progress_finish_true _ _
  | other raw =>
    refine ⟨⟨?_, ?_⟩, fun _ _ _ => ⟨rfl, rfl⟩⟩
    · rintro ⟨out, hout⟩
      cases NDEBUG <;> simp [progress_callback] at hout
    · intro h
      simp at h

/-- Witness of amended claim C9: a state of an unknown kind, halfway
through. -/
theorem progress_callback_continue_iff_witness :
    (RvtH_Progress_State.mk (.other 0) 5 10).type ≠ .RVTH_PROGRESS_EXTRACT
    ∧ (RvtH_Progress_State.mk (.other 0) 5 10).type ≠ .RVTH_PROGRESS_IMPORT
    ∧ (RvtH_Progress_State.mk (.other 0) 5 10).type ≠ .RVTH_PROGRESS_RECRYPT
    ∧ progress_callback true ⟨.other 0, 5, 10⟩ = .returned (false, [])
    ∧ progress_callback false ⟨.other 0, 5, 10⟩ = .assertFailed :=
  ⟨by decide, by decide, by decide,
   (progress_callback_continue_iff true ⟨.other 0, 5, 10⟩).2
      (by decide) (by decide) (by decide)⟩

/-- The macro `MEGABYTE` is 2048 blocks. -/
theorem MEGABYTE_eq : MEGABYTE = 2048 := by decide

/-- A text that starts with a progress label is not the lone newline. -/
theorem label_ne_newline (label rest : String) (h : 2 ≤ label.length) :
    label ++ rest ≠ "\n" := by
  intro heq
  have hlen := congrArg String.length heq
  rw [String.length_append] at hlen
  have h1 : "\n".length = 1 := by decide
  omega

/-- Claim C17: for Extract and Import states the callback writes the two
figures `lba_processed / 2048` and `lba_total / 2048` (natural-number
division, conversion `%4u`), and `lba / 2048` is `lba * 512 / 1048576` rounded
down; the figure is monotone in the LBA count, so the figure of
`lba_processed` is at most that of `lba_total` when
`lba_processed ≤ lba_total`. For a `uint32_t` count the conversion `%4u`
writes the decimal digits of the figure after its padding. -/
theorem progress_callback_megabyte_figures (NDEBUG : Bool) (lba_processed lba_total : Nat) :
    progress_callback NDEBUG ⟨.RVTH_PROGRESS_EXTRACT, lba_processed, lba_total⟩
        = .returned (true,
            [.stdout ("\rExtracting: " ++ fmt_4u (lba_processed / 2048) ++ " MB / " ++
                fmt_4u (lba_total / 2048) ++ " MB copied...")] ++
            (if lba_processed = lba_total then [.stdout "\n"] else []) ++ [.fflush_stdout])
    ∧ progress_callback NDEBUG ⟨.RVTH_PROGRESS_IMPORT, lba_processed, lba_total⟩
        = .returned (true,
            [.stdout ("\rImporting: " ++ fmt_4u (lba_processed / 2048) ++ " MB / " ++
                fmt_4u (lba_total / 2048) ++ " MB copied...")] ++
            (if lba_processed = lba_total then [.stdout "\n"] else []) ++ [.fflush_stdout])
    ∧ lba_processed / 2048 = lba_processed * 512 / 1048576
    ∧ lba_processed / 2048 = lba_processed * RVTH_BLOCK_SIZE / 1048576
    ∧ (∀ lba, lba_processed ≤ lba → lba_processed / 2048 ≤ lba / 2048)
    ∧ (lba_processed ≤ lba_total → lba_processed / 2048 ≤ lba_total / 2048)
    ∧ (lba_processed < UINT_MOD →
        fmt_4u (lba_processed / 2048)
          = String.mk (List.replicate (4 - (toString (lba_processed / 2048)).length) ' ')
              ++ toString (lba_processed / 2048)) := by
  have hdiv : lba_processed / 2048 = lba_processed * 512 / 1048576 := by omega
  refine ⟨?_, ?_, hdiv, ?_, ?_, ?_, ?_⟩
  · simp [progress_callback, progress_finish, MEGABYTE_eq]
  · simp [progress_callback, progress_finish, MEGABYTE_eq]
  · rw [hdiv]; rfl
  · intro lba hle
    exact Nat.div_le_div_right hle
  · intro hle
    exact Nat.div_le_div_right hle
  · intro hlt
    have hsmall : lba_processed / 2048 < UINT_MOD :=
      Nat.lt_of_le_of_lt (Nat.div_le_self _ _) hlt
    simp [fmt_4u, Nat.mod_eq_of_lt hsmall]

/-- Witness of claim C17: 4096 of 1048576 blocks extracted, that is 2 MB of
512 MB. -/
theorem progress_callback_megabyte_figures_witness :
    4096 ≤ 1048576
    ∧ 4096 < UINT_MOD
    ∧ 4096 / 2048 ≤ 1048576 / 2048
    ∧ fmt_4u (4096 / 2048)
        = String.mk (List.replicate (4 - (toString (4096 / 2048)).length) ' ')
            ++ toString (4096 / 2048) :=
  ⟨by decide, by decide,
   (progress_callback_megabyte_figures true 4096 1048576).2.2.2.2.2.1 (by decide),
   (progress_callback_megabyte_figures true 4096 1048576).2.2.2.2.2.2 (by decide)⟩

/-- What `progress_finish` writes: the newline is among it exactly when the
operation is finished, provided the text written before is not that
newline. -/
theorem progress_finish_newline (state : RvtH_Progress_State) (printed : List Effect)
    (hprinted : Effect.stdout "\n" ∉ printed) :
    ∃ out, progress_finish state printed = .returned (true, out)
      ∧ (Effect.stdout "\n" ∈ out ↔ state.lba_processed = state.lba_total) := by
  refine ⟨_, rfl, ?_⟩
  by_cases h : state.lba_processed = state.lba_total <;> simp [h, hprinted]

/-- Claim C18: for a state of kind Extract, Import or Recrypt the callback
returns with the terminating newline among its writes if and only if
`lba_processed == lba_total`, with assertions compiled in or out. For a
Recrypt state with `lba_total ≤ 1` the progress text is written if and only
if `lba_processed == 0`; otherwise nothing but the newline (when finished)
and the flush happen. The result is a function of the state: equal states
give equal results. -/
theorem progress_callback_newline_iff (NDEBUG : Bool) (state : RvtH_Progress_State) :
    ((state.type = .RVTH_PROGRESS_EXTRACT ∨ state.type = .RVTH_PROGRESS_IMPORT
        ∨ state.type = .RVTH_PROGRESS_RECRYPT) →
      ∃ out, progress_callback NDEBUG state = .returned (true, out)
        ∧ (Effect.stdout "\n" ∈ out ↔ state.lba_processed = state.lba_total))
    ∧ (state.type = .RVTH_PROGRESS_RECRYPT → state.lba_total ≤ 1 →
      ∃ out, progress_callback NDEBUG state = .returned (true, out)
        ∧ (Effect.stdout "\rRecrypting the ticket(s) and TMD(s)..." ∈ out
            ↔ state.lba_processed = 0)
        ∧ (state.lba_processed ≠ 0 →
            out = (if state.lba_processed = state.lba_total then [.stdout "\n"] else [])
                    ++ [.fflush_stdout]))
    ∧ (∀ other : RvtH_Progress_State, other = state →
        progress_callback NDEBUG other = progress_callback NDEBUG state) := by
  obtain ⟨type, lba_processed, lba_total⟩ := state
  refine ⟨?_, ?_, ?_⟩
  · intro hkind
    cases type with
    | RVTH_PROGRESS_EXTRACT =>
      apply progress_finish_newline
      simp only [List.mem_singleton, Effect.stdout.injEq]
      intro h
      exact label_ne_newline "\rExtracting: " _ (by decide) (by simpa [String.append_assoc] using h.symm)
    | RVTH_PROGRESS_IMPORT =>
      apply progress_finish_newline
      simp only [List.mem_singleton, Effect.stdout.injEq]
      intro h
      exact label_ne_newline "\rImporting: " _ (by decide) (by simpa [String.append_assoc] using h.symm)
    | RVTH_PROGRESS_RECRYPT =>
      simp only [progress_callback]
      split_ifs
      · apply progress_finish_newline
        decide
      · apply progress_finish_newline
        simp
      · apply progress_finish_newline
        simp only [List.mem_singleton, Effect.stdout.injEq]
        intro h
        exact label_ne_newline "\rRecrypting: " _ (by decide) (by simpa [String.append_assoc] using h.symm)
    | other raw => simp at hkind
  · intro hkind htotal
    simp only at hkind htotal
    subst hkind
    by_cases h0 : lba_processed = 0
    · refine ⟨_, by simp [progress_callback, htotal, h0, progress_finish]; rfl, ?_, ?_⟩
      · simp [h0]
      · intro hne; exact absurd h0 hne
    · refine ⟨_, by simp [progress_callback, htotal, h0, progress_finish]; rfl, ?_, ?_⟩
      · have hne : ¬ ("\rRecrypting the ticket(s) and TMD(s)..." = "\n") := by decide
        by_cases hfin : lba_processed = lba_total
        · simp [h0, hne]
        · simp [h0, hfin, hne]
      · intro _; simp
  · intro other hother
    rw [hother]

/-- Witness of claim C18: the first call of a ticket/TMD recryption, a
Recrypt state with `lba_total = 1` and `lba_processed = 0`. -/
theorem progress_callback_newline_iff_witness :
    (RvtH_Progress_State.mk .RVTH_PROGRESS_RECRYPT 0 1).type = .RVTH_PROGRESS_RECRYPT
    ∧ (RvtH_Progress_State.mk .RVTH_PROGRESS_RECRYPT 0 1).lba_total ≤ 1
    ∧ ∃ out, progress_callback false ⟨.RVTH_PROGRESS_RECRYPT, 0, 1⟩ = .returned (true, out)
        ∧ (Effect.stdout "\rRecrypting the ticket(s) and TMD(s)..." ∈ out
            ↔ (RvtH_Progress_State.mk .RVTH_PROGRESS_RECRYPT 0 1).lba_processed = 0)
        ∧ ((RvtH_Progress_State.mk .RVTH_PROGRESS_RECRYPT 0 1).lba_processed ≠ 0 →
            out = (if (RvtH_Progress_State.mk .RVTH_PROGRESS_RECRYPT 0 1).lba_processed
                        = (RvtH_Progress_State.mk .RVTH_PROGRESS_RECRYPT 0 1).lba_total
                    then [.stdout "\n"] else []) ++ [.fflush_stdout]) :=
  ⟨rfl, by decide,
   (progress_callback_newline_iff false ⟨.RVTH_PROGRESS_RECRYPT, 0, 1⟩).2.1 rfl (by decide)⟩

/-! ## Properties of `rvth_disc_header_identify` -/

/-- Every word of an all-zero buffer is zero. -/
theorem be32_zeros (n offset : Nat) : be32 (List.replicate n 0) offset = 0 := by
  have hz : ∀ i, (List.replicate n 0).getD i 0 = 0 := by
    intro i
    rw [List.getD_eq_getElem?_getD, List.getElem?_replicate]
    split <;> rfl
  simp [be32, hz]

/-- Claim C11: on a header whose bytes are all zero, whatever its length,
`rvth_disc_header_identify` returns `RVTH_BankType_Unknown`, not
`RVTH_BankType_Empty`, the magic words being non-zero. It looks at the two
magic words only: headers that agree on the words at offsets 0x18 and 0x1C
are identified alike, and no header at all is identified as
`RVTH_BankType_Empty`. -/
theorem rvth_disc_header_identify_zero (WII_MAGIC GCN_MAGIC n : Nat)
    (hwii : WII_MAGIC ≠ 0) (hgcn : GCN_MAGIC ≠ 0) :
    rvth_disc_header_identify WII_MAGIC GCN_MAGIC (List.replicate n 0)
        = .RVTH_BankType_Unknown
    ∧ rvth_disc_header_identify WII_MAGIC GCN_MAGIC (List.replicate n 0)
        ≠ .RVTH_BankType_Empty
    ∧ (∀ h1 h2 : List Nat, be32 h1 0x18 = be32 h2 0x18 → be32 h1 0x1C = be32 h2 0x1C →
        rvth_disc_header_identify WII_MAGIC GCN_MAGIC h1
          = rvth_disc_header_identify WII_MAGIC GCN_MAGIC h2)
    ∧ (∀ discHeader : List Nat,
        rvth_disc_header_identify WII_MAGIC GCN_MAGIC discHeader ≠ .RVTH_BankType_Empty) := by
  have hzero : rvth_disc_header_identify WII_MAGIC GCN_MAGIC (List.replicate n 0)
      = .RVTH_BankType_Unknown := by
    simp [rvth_disc_header_identify, be32_zeros, Ne.symm hwii, Ne.symm hgcn]
  refine ⟨hzero, ?_, ?_, ?_⟩
  · rw [hzero]; decide
  · intro h1 h2 h18 h1c
    simp [rvth_disc_header_identify, h18, h1c]
  · intro discHeader
    unfold rvth_disc_header_identify
    split_ifs <;> decide

/-- Witness of claim C11: a 16 KB all-zero buffer and the magic words
0x5D1C9EA3 (Wii) and 0xC2339F3D (GameCube). -/
theorem rvth_disc_header_identify_zero_witness :
    (0x5D1C9EA3 : Nat) ≠ 0 ∧ (0xC2339F3D : Nat) ≠ 0
    ∧ rvth_disc_header_identify 0x5D1C9EA3 0xC2339F3D (List.replicate 16384 0)
        = .RVTH_BankType_Unknown :=
  ⟨by decide, by decide,
   (rvth_disc_header_identify_zero 0x5D1C9EA3 0xC2339F3D 16384 (by decide) (by decide)).1⟩

/-! ## Properties of the bank list model -/

/-- Two column labels at different places of the list of labels are
different numbers. -/
theorem columns_get_ne (h : RvtHModelEnums) (i j : Nat) (hi : i < 12) (hj : j < 12)
    (hij : i ≠ j) :
    [h.COL_ICON, h.COL_TITLE, h.COL_BANKNUM, h.COL_GAMEID, h.COL_DISCNUM,
      h.COL_REVISION, h.COL_REGION, h.COL_IOS_VERSION, h.COL_ENCRYPTION, h.COL_SIG_TICKET,
      h.COL_SIG_TMD, h.COL_APPLOADER].get ⟨i, hi⟩
    ≠ [h.COL_ICON, h.COL_TITLE, h.COL_BANKNUM, h.COL_GAMEID, h.COL_DISCNUM,
      h.COL_REVISION, h.COL_REGION, h.COL_IOS_VERSION, h.COL_ENCRYPTION, h.COL_SIG_TICKET,
      h.COL_SIG_TMD, h.COL_APPLOADER].get ⟨j, hj⟩ :=
  fun e => hij (Fin.mk.inj (List.nodup_iff_injective_get.1 h.columns_distinct e))

/-- The label `COL_IOS_VERSION` differs from the labels tested before it. -/
theorem COL_IOS_VERSION_ne (h : RvtHModelEnums) :
    h.COL_IOS_VERSION ≠ h.COL_BANKNUM ∧ h.COL_IOS_VERSION ≠ h.COL_ICON
    ∧ h.COL_IOS_VERSION ≠ h.COL_TITLE ∧ h.COL_IOS_VERSION ≠ h.COL_GAMEID
    ∧ h.COL_IOS_VERSION ≠ h.COL_DISCNUM ∧ h.COL_IOS_VERSION ≠ h.COL_REVISION
    ∧ h.COL_IOS_VERSION ≠ h.COL_REGION :=
  ⟨columns_get_ne h 7 2 (by decide) (by decide) (by decide),
   columns_get_ne h 7 0 (by decide) (by decide) (by decide),
   columns_get_ne h 7 1 (by decide) (by decide) (by decide),
   columns_get_ne h 7 3 (by decide) (by decide) (by decide),
   columns_get_ne h 7 4 (by decide) (by decide) (by decide),
   columns_get_ne h 7 5 (by decide) (by decide) (by decide),
   columns_get_ne h 7 6 (by decide) (by decide) (by decide)⟩

/-- The label `COL_ENCRYPTION` differs from the labels tested before it. -/
theorem COL_ENCRYPTION_ne (h : RvtHModelEnums) :
    h.COL_ENCRYPTION ≠ h.COL_BANKNUM ∧ h.COL_ENCRYPTION ≠ h.COL_ICON
    ∧ h.COL_ENCRYPTION ≠ h.COL_TITLE ∧ h.COL_ENCRYPTION ≠ h.COL_GAMEID
    ∧ h.COL_ENCRYPTION ≠ h.COL_DISCNUM ∧ h.COL_ENCRYPTION ≠ h.COL_REVISION
    ∧ h.COL_ENCRYPTION ≠ h.COL_REGION ∧ h.COL_ENCRYPTION ≠ h.COL_IOS_VERSION :=
  ⟨columns_get_ne h 8 2 (by decide) (by decide) (by decide),
   columns_get_ne h 8 0 (by decide) (by decide) (by decide),
   columns_get_ne h 8 1 (by decide) (by decide) (by decide),
   columns_get_ne h 8 3 (by decide) (by decide) (by decide),
   columns_get_ne h 8 4 (by decide) (by decide) (by decide),
   columns_get_ne h 8 5 (by decide) (by decide) (by decide),
   columns_get_ne h 8 6 (by decide) (by decide) (by decide),
   columns_get_ne h 8 7 (by decide) (by decide) (by decide)⟩

/-- The column `COL_BANKNUM` selects the bank-number case. -/
theorem column_BANKNUM (h : RvtHModelEnums) : h.column h.COL_BANKNUM = .BANKNUM := by
  simp [RvtHModelEnums.column]

/-- The column `COL_IOS_VERSION` selects the IOS case. -/
theorem column_IOS_VERSION (h : RvtHModelEnums) : h.column h.COL_IOS_VERSION = .IOS_VERSION := by
  obtain ⟨h1, h2, h3, h4, h5, h6, h7⟩ := COL_IOS_VERSION_ne h
  simp [RvtHModelEnums.column, h1, h2, h3, h4, h5, h6, h7]

/-- The column `COL_ENCRYPTION` selects the encryption case. -/
theorem column_ENCRYPTION (h : RvtHModelEnums) : h.column h.COL_ENCRYPTION = .ENCRYPTION := by
  obtain ⟨h1, h2, h3, h4, h5, h6, h7, h8⟩ := COL_ENCRYPTION_ne h
  simp [RvtHModelEnums.column, h1, h2, h3, h4, h5, h6, h7, h8]

/-- The role `Qt::DisplayRole` selects the display case. -/
theorem role_DisplayRole (h : RvtHModelEnums) : h.role Qt_DisplayRole = .DisplayRole := by
  simp [RvtHModelEnums.role, Qt_DisplayRole]

/-- Unfolds `data` on a valid index whose row is below the bank count. -/
theorem data_of_valid_row (h : RvtHModelEnums) (tr : String → String) (d : RvtHModelPrivate)
    (index : QModelIndex) (role : Int) (rvth : RvtHBanks)
    (hrvth : d.rvth = some rvth) (hvalid : index.isValid = true)
    (hrow : index.row < rvth.get_BankCount) :
    data h tr d index role =
      match rvth.get_BankEntry index.row with
      | none => (.invalid, [index.row])
      | some entry => (data_entry h tr d.style entry index role, [index.row]) := by
  have hcount : rowCount d = rvth.get_BankCount := by simp [rowCount, hrvth]
  have hnot : ¬ (index.row ≥ rvth.get_BankCount) := by omega
  unfold data
  rw [hrvth]
  simp [hvalid, hcount, hnot]

/-- Unfolds `data` on a valid index whose row holds the entry `entry`. -/
theorem data_of_entry (h : RvtHModelEnums) (tr : String → String) (d : RvtHModelPrivate)
    (index : QModelIndex) (role : Int) (rvth : RvtHBanks) (entry : RvtH_BankEntry)
    (hrvth : d.rvth = some rvth) (hvalid : index.isValid = true)
    (hrow : index.row < rvth.get_BankCount)
    (hentry : rvth.get_BankEntry index.row = some entry) :
    data h tr d index role = (data_entry h tr d.style entry index role, [index.row]) := by
  rw [data_of_valid_row h tr d index role rvth hrvth hvalid hrow, hentry]

/-- A decimal number written from an `int` that is not negative is the
decimal number of the natural number. -/
theorem QString_number_natCast (n : Nat) : QString_number (n : Int) = toString n := rfl

/-- An `int` in range is not changed by wrapping. -/
theorem int_wrap_of_range (x : Int) (hlo : -2147483648 ≤ x) (hhi : x < 2147483648) :
    int_wrap x = x := by
  unfold int_wrap
  omega

/-- Claim C12: for a row whose bank entry has type `RVTH_BankType_Wii_DL_Bank2`,
`RvtHModel::data` returns the empty value `QVariant()`, whatever the column
and the role of the request. -/
theorem data_Wii_DL_Bank2_empty (h : RvtHModelEnums) (tr : String → String)
    (d : RvtHModelPrivate) (index : QModelIndex) (role : Int) (rvth : RvtHBanks)
    (entry : RvtH_BankEntry)
    (hrvth : d.rvth = some rvth)
    (hentry : rvth.get_BankEntry index.row = some entry)
    (htype : entry.type = .RVTH_BankType_Wii_DL_Bank2) :
    (data h tr d index role).1 = .invalid := by
  unfold data
  rw [hrvth]
  simp only
  split_ifs
  · rfl
  · rfl
  · rw [hentry]
    simp [data_entry, htype]

/-- Witness of claim C12: bank 2 of the sample image, the second half of a
dual-layer game, asked for its title. -/
theorem data_Wii_DL_Bank2_empty_witness :
    sampleModel.rvth = some sampleBanks
    ∧ sampleBanks.get_BankEntry (QModelIndex.mk 1 2 true).row
        = some (sampleEntry .RVTH_BankType_Wii_DL_Bank2 0)
    ∧ (sampleEntry .RVTH_BankType_Wii_DL_Bank2 0).type = .RVTH_BankType_Wii_DL_Bank2
    ∧ (data sampleEnums id sampleModel ⟨1, 2, true⟩ Qt_DisplayRole).1 = .invalid :=
  ⟨rfl, rfl, rfl,
   data_Wii_DL_Bank2_empty sampleEnums id sampleModel ⟨1, 2, true⟩ Qt_DisplayRole sampleBanks
     (sampleEntry .RVTH_BankType_Wii_DL_Bank2 0) rfl rfl rfl⟩

/-- Claim C13: with an image set, `rowCount` is the bank count of the image
and `columnCount` is `COL_MAX`; with none set both are 0. For a valid index
whose row `r` is below the bank count, `data` asks the image for bank entry
`r` and for no other, and its value is computed from that entry alone: two
images that hold the same entry at `r` give the same value. -/
theorem model_rows_are_banks (h : RvtHModelEnums) (tr : String → String)
    (d : RvtHModelPrivate) (index : QModelIndex) (role : Int) :
    (∀ rvth, d.rvth = some rvth →
        rowCount d = rvth.get_BankCount ∧ columnCount h d = h.COL_MAX)
    ∧ (d.rvth = none → rowCount d = 0 ∧ columnCount h d = 0)
    ∧ (∀ rvth, d.rvth = some rvth → index.isValid = true → index.row < rowCount d →
        (data h tr d index role).2 = [index.row]
        ∧ (data h tr d index role).1 =
            (match rvth.get_BankEntry index.row with
             | none => QVariant.invalid
             | some entry => data_entry h tr d.style entry index role)
        ∧ (∀ (d2 : RvtHModelPrivate) (rvth2 : RvtHBanks), d2.rvth = some rvth2 →
            d2.style = d.style → index.row < rowCount d2 →
            rvth2.get_BankEntry index.row = rvth.get_BankEntry index.row →
            (data h tr d2 index role).1 = (data h tr d index role).1)) := by
  refine ⟨?_, ?_, ?_⟩
  · intro rvth hrvth
    simp [rowCount, columnCount, hrvth]
  · intro hnone
    simp [rowCount, columnCount, hnone]
  · intro rvth hrvth hvalid hrow
    have hcount : rowCount d = rvth.get_BankCount := by simp [rowCount, hrvth]
    rw [hcount] at hrow
    have hdata := data_of_valid_row h tr d index role rvth hrvth hvalid hrow
    refine ⟨?_, ?_, ?_⟩
    · rw [hdata]; cases rvth.get_BankEntry index.row <;> rfl
    · rw [hdata]; cases rvth.get_BankEntry index.row <;> rfl
    · intro d2 rvth2 hrvth2 hstyle hrow2 hsame
      have hcount2 : rowCount d2 = rvth2.get_BankCount := by simp [rowCount, hrvth2]
      rw [hcount2] at hrow2
      rw [hdata, data_of_valid_row h tr d2 index role rvth2 hrvth2 hvalid hrow2, hsame, hstyle]

/-- Witness of claim C13: the sample model has four rows and twelve columns,
and row 2 shows bank entry 2 of the image. -/
theorem model_rows_are_banks_witness :
    sampleModel.rvth = some sampleBanks
    ∧ (QModelIndex.mk 2 0 true).isValid = true
    ∧ (QModelIndex.mk 2 0 true).row < rowCount sampleModel
    ∧ rowCount sampleModel = sampleBanks.get_BankCount
    ∧ columnCount sampleEnums sampleModel = sampleEnums.COL_MAX
    ∧ (data sampleEnums id sampleModel ⟨2, 0, true⟩ Qt_DisplayRole).2
        = [(QModelIndex.mk 2 0 true).row] :=
  ⟨rfl, by decide, by decide,
   ((model_rows_are_banks sampleEnums id sampleModel ⟨2, 0, true⟩ Qt_DisplayRole).1
      sampleBanks rfl).1,
   ((model_rows_are_banks sampleEnums id sampleModel ⟨2, 0, true⟩ Qt_DisplayRole).1
      sampleBanks rfl).2,
   ((model_rows_are_banks sampleEnums id sampleModel ⟨2, 0, true⟩ Qt_DisplayRole).2.2
      sampleBanks rfl (by decide) (by decide)).1⟩

/-- Claim C20: every call of `rvth_get_BankEntry` that `data` makes has the
row of the index as its argument, on an image that is set, with
`0 ≤ row < bankCount`. Without an image, for an invalid index and for a row
at or beyond `rowCount` the result is the empty value and no call is made;
when the call yields no entry the result is the empty value too. -/
theorem data_queries_in_range (h : RvtHModelEnums) (tr : String → String)
    (d : RvtHModelPrivate) (index : QModelIndex) (role : Int) :
    (∀ r ∈ (data h tr d index role).2,
        ∃ rvth, d.rvth = some rvth ∧ r = index.row ∧ 0 ≤ r ∧ r < rvth.get_BankCount)
    ∧ (d.rvth = none → data h tr d index role = (.invalid, []))
    ∧ (index.isValid = false → data h tr d index role = (.invalid, []))
    ∧ (index.row ≥ rowCount d → data h tr d index role = (.invalid, []))
    ∧ (∀ rvth, d.rvth = some rvth → rvth.get_BankEntry index.row = none →
        (data h tr d index role).1 = .invalid) := by
  refine ⟨?_, ?_, ?_, ?_, ?_⟩
  · intro r hr
    cases hrvth : d.rvth with
    | none => simp [data, hrvth] at hr
    | some rvth =>
      have hcount : rowCount d = rvth.get_BankCount := by simp [rowCount, hrvth]
      by_cases hvalid : index.isValid = true
      · by_cases hrow : index.row ≥ rvth.get_BankCount
        · simp [data, hrvth, hvalid, hcount, hrow] at hr
        · have hlt : index.row < rvth.get_BankCount := by omega
          have hdata := data_of_valid_row h tr d index role rvth hrvth hvalid hlt
          have hcalls : (data h tr d index role).2 = [index.row] := by
            rw [hdata]; cases rvth.get_BankEntry index.row <;> rfl
          rw [hcalls] at hr
          have hreq : r = index.row := by simpa using hr
          have hnonneg : 0 ≤ index.row := by
            simp only [QModelIndex.isValid, Bool.and_eq_true, decide_eq_true_eq] at hvalid
            exact hvalid.1.1
          exact ⟨rvth, rfl, hreq, by omega, by omega⟩
      · simp [data, hrvth, hvalid] at hr
  · intro hnone
    simp [data, hnone]
  · intro hinvalid
    cases hrvth : d.rvth <;> simp [data, hrvth, hinvalid]
  · intro hrow
    cases hrvth : d.rvth with
    | none => simp [data, hrvth]
    | some rvth =>
      by_cases hvalid : index.isValid = true <;> simp [data, hrvth, hvalid, hrow]
  · intro rvth hrvth hentry
    unfold data
    rw [hrvth]
    simp only
    split_ifs
    · rfl
    · rfl
    · rw [hentry]

/-- Witness of claim C20: row 4 of the four-bank sample image is not
queried, row 3 is. -/
theorem data_queries_in_range_witness :
    (QModelIndex.mk 4 0 true).row ≥ rowCount sampleModel
    ∧ data sampleEnums id sampleModel ⟨4, 0, true⟩ Qt_DisplayRole = (.invalid, [])
    ∧ (3 : Int) ∈ (data sampleEnums id sampleModel ⟨3, 0, true⟩ Qt_DisplayRole).2
    ∧ ∃ rvth, sampleModel.rvth = some rvth ∧ (3 : Int) = (QModelIndex.mk 3 0 true).row
        ∧ (0 : Int) ≤ 3 ∧ 3 < rvth.get_BankCount :=
  ⟨by decide,
   (data_queries_in_range sampleEnums id sampleModel ⟨4, 0, true⟩ Qt_DisplayRole).2.2.2.1
     (by decide),
   by decide,
   (data_queries_in_range sampleEnums id sampleModel ⟨3, 0, true⟩ Qt_DisplayRole).1 3
     (by decide)⟩

/-- Claim C14: for the display role of the IOS-version column, `data` returns
the decimal string of the entry's `ios_version` when the entry type is
`Wii_SL` or `Wii_DL`, and the empty value for every other type, among them
GameCube, Unknown, Empty and Wii_DL_Bank2. -/
theorem data_ios_version_wii_only (h : RvtHModelEnums) (tr : String → String)
    (d : RvtHModelPrivate) (index : QModelIndex) (rvth : RvtHBanks) (entry : RvtH_BankEntry)
    (hrvth : d.rvth = some rvth) (hvalid : index.isValid = true)
    (hrow : index.row < rvth.get_BankCount)
    (hentry : rvth.get_BankEntry index.row = some entry)
    (hcol : index.column = h.COL_IOS_VERSION) :
    ((entry.type = .RVTH_BankType_Wii_SL ∨ entry.type = .RVTH_BankType_Wii_DL) →
        (data h tr d index Qt_DisplayRole).1 = .string (toString entry.ios_version))
    ∧ (entry.type ≠ .RVTH_BankType_Wii_SL → entry.type ≠ .RVTH_BankType_Wii_DL →
        (data h tr d index Qt_DisplayRole).1 = .invalid)
    ∧ ((entry.type = .RVTH_BankType_GCN ∨ entry.type = .RVTH_BankType_Unknown
          ∨ entry.type = .RVTH_BankType_Empty ∨ entry.type = .RVTH_BankType_Wii_DL_Bank2) →
        (data h tr d index Qt_DisplayRole).1 = .invalid) := by
  have hdata := data_of_entry h tr d index Qt_DisplayRole rvth entry hrvth hvalid hrow hentry
  have hne := (COL_IOS_VERSION_ne h).1
  have hother : entry.type ≠ .RVTH_BankType_Wii_SL → entry.type ≠ .RVTH_BankType_Wii_DL →
      (data h tr d index Qt_DisplayRole).1 = .invalid := by
    intro hsl hdl
    rw [hdata]
    obtain ⟨type, discHeader, region_code, crypto_type, ios_version, is_deleted⟩ := entry
    cases type <;>
      simp_all [data_entry, data_listed, column_IOS_VERSION, role_DisplayRole]
  refine ⟨?_, hother, ?_⟩
  · intro hwii
    rw [hdata]
    obtain ⟨type, discHeader, region_code, crypto_type, ios_version, is_deleted⟩ := entry
    rcases hwii with hsl | hdl
    · simp only at hsl
      subst hsl
      simp [data_entry, data_listed, hcol, column_IOS_VERSION, role_DisplayRole,
        QString_number_natCast]
    · simp only at hdl
      subst hdl
      simp [data_entry, data_listed, hcol, column_IOS_VERSION, role_DisplayRole,
        QString_number_natCast]
  · intro hty
    apply hother
    · rcases hty with hty | hty | hty | hty <;> rw [hty] <;> decide
    · rcases hty with hty | hty | hty | hty <;> rw [hty] <;> decide

/-- Witness of claim C14: the IOS column of bank 1 (dual-layer Wii, IOS 36)
and of bank 3 (GameCube) of the sample image. -/
theorem data_ios_version_wii_only_witness :
    (sampleModel.rvth = some sampleBanks
      ∧ (QModelIndex.mk 0 7 true).isValid = true
      ∧ (QModelIndex.mk 0 7 true).row < sampleBanks.get_BankCount
      ∧ (QModelIndex.mk 0 7 true).column = sampleEnums.COL_IOS_VERSION
      ∧ (data sampleEnums id sampleModel ⟨0, 7, true⟩ Qt_DisplayRole).1
          = .string (toString (sampleEntry .RVTH_BankType_Wii_DL 3).ios_version))
    ∧ (data sampleEnums id sampleModel ⟨2, 7, true⟩ Qt_DisplayRole).1 = .invalid :=
  ⟨⟨rfl, by decide, by decide, rfl,
     (data_ios_version_wii_only sampleEnums id sampleModel ⟨0, 7, true⟩ sampleBanks
        (sampleEntry .RVTH_BankType_Wii_DL 3) rfl (by decide) (by decide) rfl rfl).1
        (Or.inr rfl)⟩,
   (data_ios_version_wii_only sampleEnums id sampleModel ⟨2, 7, true⟩ sampleBanks
      (sampleEntry .RVTH_BankType_GCN 1) rfl (by decide) (by decide) rfl rfl).2.2
      (Or.inl rfl)⟩

/-- Claim C15: for the display role of the bank-number column and an entry
at row `r`, a `Wii_DL` entry yields the decimal number `r + 1`, a newline and
the decimal number `r + 2`; every other entry that is neither empty nor
`Wii_DL_Bank2` yields the decimal number `r + 1` alone (as an empty entry
does). The row is such that `r + 2` is an `int`. -/
theorem data_banknum_dual_layer (h : RvtHModelEnums) (tr : String → String)
    (d : RvtHModelPrivate) (index : QModelIndex) (rvth : RvtHBanks) (entry : RvtH_BankEntry)
    (r : Nat)
    (hrvth : d.rvth = some rvth) (hvalid : index.isValid = true)
    (hrow : index.row < rvth.get_BankCount)
    (hentry : rvth.get_BankEntry index.row = some entry)
    (hcol : index.column = h.COL_BANKNUM)
    (hr : index.row = (r : Int)) (hint : r + 2 < 2147483648) :
    (entry.type = .RVTH_BankType_Wii_DL →
        (data h tr d index Qt_DisplayRole).1
          = .string (toString (r + 1) ++ "\n" ++ toString (r + 2)))
    ∧ (entry.type ≠ .RVTH_BankType_Wii_DL → entry.type ≠ .RVTH_BankType_Empty →
        entry.type ≠ .RVTH_BankType_Wii_DL_Bank2 →
        (data h tr d index Qt_DisplayRole).1 = .string (toString (r + 1)))
    ∧ (entry.type = .RVTH_BankType_Empty →
        (data h tr d index Qt_DisplayRole).1 = .string (toString (r + 1))) := by
  have hdata := data_of_entry h tr d index Qt_DisplayRole rvth entry hrvth hvalid hrow hentry
  have h1 : QString_number (int_wrap (index.row + 1)) = toString (r + 1) := by
    rw [hr, int_wrap_of_range _ (by omega) (by omega)]
    exact QString_number_natCast (r + 1)
  have h2 : QString_number (int_wrap (index.row + 2)) = toString (r + 2) := by
    rw [hr, int_wrap_of_range _ (by omega) (by omega)]
    exact QString_number_natCast (r + 2)
  obtain ⟨type, discHeader, region_code, crypto_type, ios_version, is_deleted⟩ := entry
  refine ⟨?_, ?_, ?_⟩
  · intro hdl
    simp only at hdl
    subst hdl
    rw [hdata]
    simp [data_entry, data_listed, hcol, column_BANKNUM, role_DisplayRole, h1, h2,
      String.append_assoc]
  · intro hdl hempty hbank2
    rw [hdata]
    cases type <;>
      simp_all [data_entry, data_listed, column_BANKNUM, role_DisplayRole]
  · intro hempty
    simp only at hempty
    subst hempty
    rw [hdata]
    simp [data_entry, hcol, role_DisplayRole, h1]

/-- Witness of claim C15: the bank-number column of bank 1 (dual-layer) and
of bank 3 (GameCube) of the sample image. -/
theorem data_banknum_dual_layer_witness :
    (sampleEntry .RVTH_BankType_Wii_DL 3).type = .RVTH_BankType_Wii_DL
    ∧ (data sampleEnums id sampleModel ⟨0, 0, true⟩ Qt_DisplayRole).1
        = .string (toString (0 + 1) ++ "\n" ++ toString (0 + 2))
    ∧ (data sampleEnums id sampleModel ⟨2, 0, true⟩ Qt_DisplayRole).1
        = .string (toString (2 + 1)) :=
  ⟨rfl,
   (data_banknum_dual_layer sampleEnums id sampleModel ⟨0, 0, true⟩ sampleBanks
      (sampleEntry .RVTH_BankType_Wii_DL 3) 0 rfl (by decide) (by decide) rfl rfl rfl
      (by decide)).1 rfl,
   (data_banknum_dual_layer sampleEnums id sampleModel ⟨2, 0, true⟩ sampleBanks
      (sampleEntry .RVTH_BankType_GCN 1) 2 rfl (by decide) (by decide) rfl rfl rfl
      (by decide)).2.1 (by decide) (by decide) (by decide)⟩

/-- The crypto-type labels are pairwise different numbers. -/
theorem cryptos_ne (h : RvtHModelEnums) :
    h.RVTH_CryptoType_None ≠ h.RVTH_CryptoType_Debug
    ∧ h.RVTH_CryptoType_None ≠ h.RVTH_CryptoType_Retail
    ∧ h.RVTH_CryptoType_None ≠ h.RVTH_CryptoType_Korean
    ∧ h.RVTH_CryptoType_Debug ≠ h.RVTH_CryptoType_Retail
    ∧ h.RVTH_CryptoType_Debug ≠ h.RVTH_CryptoType_Korean
    ∧ h.RVTH_CryptoType_Retail ≠ h.RVTH_CryptoType_Korean
    ∧ h.RVTH_CryptoType_Unknown ≠ h.RVTH_CryptoType_None
    ∧ h.RVTH_CryptoType_Unknown ≠ h.RVTH_CryptoType_Debug
    ∧ h.RVTH_CryptoType_Unknown ≠ h.RVTH_CryptoType_Retail
    ∧ h.RVTH_CryptoType_Unknown ≠ h.RVTH_CryptoType_Korean := by
  have hd := h.cryptos_distinct
  simp only [List.nodup_cons, List.mem_cons, List.mem_singleton, not_or] at hd
  obtain ⟨⟨u1, u2, u3, u4⟩, ⟨n1, n2, n3⟩, ⟨d1, d2⟩, ⟨r1, -⟩⟩ := hd
  exact ⟨n1, n2, n3.1, d1, d2.1, r1.1, u1, u2, u3, u4.1⟩

/-- The text of the encryption column for an entry that is listed: the
translated name of a named key domain, the decimal number otherwise. -/
theorem data_encryption_text (h : RvtHModelEnums) (tr : String → String)
    (d : RvtHModelPrivate) (index : QModelIndex) (rvth : RvtHBanks) (entry : RvtH_BankEntry)
    (hrvth : d.rvth = some rvth) (hvalid : index.isValid = true)
    (hrow : index.row < rvth.get_BankCount)
    (hentry : rvth.get_BankEntry index.row = some entry)
    (hcol : index.column = h.COL_ENCRYPTION)
    (hempty : entry.type ≠ .RVTH_BankType_Empty)
    (hbank2 : entry.type ≠ .RVTH_BankType_Wii_DL_Bank2) :
    (data h tr d index Qt_DisplayRole).1 =
      if entry.crypto_type = h.RVTH_CryptoType_None then .string (tr "None")
      else if entry.crypto_type = h.RVTH_CryptoType_Debug then .string (tr "Debug")
      else if entry.crypto_type = h.RVTH_CryptoType_Retail then .string (tr "Retail")
      else if entry.crypto_type = h.RVTH_CryptoType_Korean then .string (tr "Korean")
      else .string (toString entry.crypto_type) := by
  rw [data_of_entry h tr d index Qt_DisplayRole rvth entry hrvth hvalid hrow hentry]
  obtain ⟨type, discHeader, region_code, crypto_type, ios_version, is_deleted⟩ := entry
  cases type <;>
    simp_all [data_entry, data_listed, column_ENCRYPTION, role_DisplayRole,
      QString_number_natCast]

/-- Claim C16 as stated fails in two ways. Bank 4 of the sample image is
empty and its crypto type is None, yet its encryption column is the empty
value, not "None". And under a German translation the encryption column of
bank 3 (GameCube, crypto type None) reads "Keine". -/
theorem data_encryption_not_always_name :
    (sampleEntry .RVTH_BankType_Empty 1).crypto_type = sampleEnums.RVTH_CryptoType_None
    ∧ sampleBanks.get_BankEntry 3 = some (sampleEntry .RVTH_BankType_Empty 1)
    ∧ (data sampleEnums id sampleModel ⟨3, sampleEnums.COL_ENCRYPTION, true⟩
        Qt_DisplayRole).1 = .invalid
    ∧ (data sampleEnums id sampleModel ⟨3, sampleEnums.COL_ENCRYPTION, true⟩
        Qt_DisplayRole).1 ≠ .string "None"
    ∧ sampleBanks.get_BankEntry 2 = some (sampleEntry .RVTH_BankType_GCN 1)
    ∧ (data sampleEnums sampleTr sampleModel ⟨2, sampleEnums.COL_ENCRYPTION, true⟩
        Qt_DisplayRole).1 = .string "Keine"
    ∧ (data sampleEnums sampleTr sampleModel ⟨2, sampleEnums.COL_ENCRYPTION, true⟩
        Qt_DisplayRole).1 ≠ .string "None" := by
  refine ⟨rfl, rfl, ?_, ?_, rfl, ?_, ?_⟩ <;> decide

/-- Claim C16, amended: for the display role of the encryption column, a
valid index and a row below the bank count, `data` answers by the type of the
bank entry. For an entry whose type is neither Empty nor Wii_DL_Bank2 it
returns the translation `tr` of the name of the key domain ("None", "Debug",
"Retail", "Korean"), which is the name itself when the translation leaves
texts as they are, and, for every other `crypto_type` value, Unknown
included, its decimal number; two such entries with named key domains and the
same text have the same key domain whenever the translation keeps the four
names apart. For an entry whose type is Empty or Wii_DL_Bank2 it returns the
empty value `QVariant()`, whatever the `crypto_type` of the entry. -/
theorem data_encryption_names (h : RvtHModelEnums) (tr : String → String)
    (d : RvtHModelPrivate) (index : QModelIndex) (rvth : RvtHBanks) (entry : RvtH_BankEntry)
    (hrvth : d.rvth = some rvth) (hvalid : index.isValid = true)
    (hrow : index.row < rvth.get_BankCount)
    (hentry : rvth.get_BankEntry index.row = some entry)
    (hcol : index.column = h.COL_ENCRYPTION) :
    (entry.type ≠ .RVTH_BankType_Empty → entry.type ≠ .RVTH_BankType_Wii_DL_Bank2 →
      (entry.crypto_type = h.RVTH_CryptoType_None →
          (data h tr d index Qt_DisplayRole).1 = .string (tr "None"))
      ∧ (entry.crypto_type = h.RVTH_CryptoType_Debug →
          (data h tr d index Qt_DisplayRole).1 = .string (tr "Debug"))
      ∧ (entry.crypto_type = h.RVTH_CryptoType_Retail →
          (data h tr d index Qt_DisplayRole).1 = .string (tr "Retail"))
      ∧ (entry.crypto_type = h.RVTH_CryptoType_Korean →
          (data h tr d index Qt_DisplayRole).1 = .string (tr "Korean"))
      ∧ (entry.crypto_type ≠ h.RVTH_CryptoType_None →
          entry.crypto_type ≠ h.RVTH_CryptoType_Debug →
          entry.crypto_type ≠ h.RVTH_CryptoType_Retail →
          entry.crypto_type ≠ h.RVTH_CryptoType_Korean →
          (data h tr d index Qt_DisplayRole).1 = .string (toString entry.crypto_type))
      ∧ (entry.crypto_type = h.RVTH_CryptoType_Unknown →
          (data h tr d index Qt_DisplayRole).1 = .string (toString entry.crypto_type))
      ∧ ((∀ s : String, tr s = s) →
          (entry.crypto_type = h.RVTH_CryptoType_None →
              (data h tr d index Qt_DisplayRole).1 = .string "None")
          ∧ (entry.crypto_type = h.RVTH_CryptoType_Debug →
              (data h tr d index Qt_DisplayRole).1 = .string "Debug")
          ∧ (entry.crypto_type = h.RVTH_CryptoType_Retail →
              (data h tr d index Qt_DisplayRole).1 = .string "Retail")
          ∧ (entry.crypto_type = h.RVTH_CryptoType_Korean →
              (data h tr d index Qt_DisplayRole).1 = .string "Korean"))
      ∧ (∀ (index2 : QModelIndex) (entry2 : RvtH_BankEntry),
          index2.isValid = true → index2.row < rvth.get_BankCount →
          rvth.get_BankEntry index2.row = some entry2 →
          index2.column = h.COL_ENCRYPTION →
          entry2.type ≠ .RVTH_BankType_Empty → entry2.type ≠ .RVTH_BankType_Wii_DL_Bank2 →
          entry.crypto_type ∈ [h.RVTH_CryptoType_None, h.RVTH_CryptoType_Debug,
            h.RVTH_CryptoType_Retail, h.RVTH_CryptoType_Korean] →
          entry2.crypto_type ∈ [h.RVTH_CryptoType_None, h.RVTH_CryptoType_Debug,
            h.RVTH_CryptoType_Retail, h.RVTH_CryptoType_Korean] →
          (∀ a ∈ ["None", "Debug", "Retail", "Korean"],
            ∀ b ∈ ["None", "Debug", "Retail", "Korean"], tr a = tr b → a = b) →
          (data h tr d index Qt_DisplayRole).1 = (data h tr d index2 Qt_DisplayRole).1 →
          entry.crypto_type = entry2.crypto_type))
    ∧ (entry.type = .RVTH_BankType_Empty →
        (data h tr d index Qt_DisplayRole).1 = .invalid)
    ∧ (entry.type = .RVTH_BankType_Wii_DL_Bank2 →
        (data h tr d index Qt_DisplayRole).1 = .invalid) := by
  have hne : h.COL_ENCRYPTION ≠ h.COL_BANKNUM := (COL_ENCRYPTION_ne h).1
  refine ⟨?_, ?_, ?_⟩
  · intro hempty hbank2
    have htext := data_encryption_text h tr d index rvth entry hrvth hvalid hrow hentry hcol
      hempty hbank2
    obtain ⟨n1, n2, n3, d1, d2, r1, u1, u2, u3, u4⟩ := cryptos_ne h
    refine ⟨?_, ?_, ?_, ?_, ?_, ?_, ?_, ?_⟩
    · intro hc; rw [htext]; simp [hc]
    · intro hc; rw [htext]; simp [hc, Ne.symm n1]
    · intro hc; rw [htext]; simp [hc, Ne.symm n2, Ne.symm d1]
    · intro hc; rw [htext]; simp [hc, Ne.symm n3, Ne.symm d2, Ne.symm r1]
    · intro c1 c2 c3 c4; rw [htext]; simp [c1, c2, c3, c4]
    · intro hc; rw [htext]; simp [hc, u1, u2, u3, u4]
    · intro hid
      refine ⟨?_, ?_, ?_, ?_⟩
      · intro hc; rw [htext]; simp [hc, hid]
      · intro hc; rw [htext]; simp [hc, hid, Ne.symm n1]
      · intro hc; rw [htext]; simp [hc, hid, Ne.symm n2, Ne.symm d1]
      · intro hc; rw [htext]; simp [hc, hid, Ne.symm n3, Ne.symm d2, Ne.symm r1]
    · intro index2 entry2 hvalid2 hrow2 hentry2 hcol2 hempty2 hbank22 hnamed hnamed2 htr heq
      have htext2 := data_encryption_text h tr d index2 rvth entry2 hrvth hvalid2 hrow2 hentry2
        hcol2 hempty2 hbank22
      rw [htext, htext2] at heq
      have key : ∀ a ∈ ["None", "Debug", "Retail", "Korean"],
          ∀ b ∈ ["None", "Debug", "Retail", "Korean"],
          QVariant.string (tr a) = QVariant.string (tr b) → a = b := by
        intro a ha b hb hab
        exact htr a ha b hb (QVariant.string.inj hab)
      simp only [List.mem_cons, List.mem_singleton, List.not_mem_nil, or_false] at hnamed hnamed2
      rcases hnamed with c | c | c | c <;> rcases hnamed2 with c2 | c2 | c2 | c2 <;>
        rw [c, c2] <;>
        simp only [c, c2, if_true, if_false, Ne.symm n1, Ne.symm n2, Ne.symm n3, Ne.symm d1,
          Ne.symm d2, Ne.symm r1, n1, n2, n3, d1, d2, r1, ite_true, ite_false, if_pos,
          if_neg, not_false_eq_true] at heq <;>
        first
          | rfl
          | (exfalso
             have hab := key _ (by simp) _ (by simp) heq
             exact absurd hab (by decide))
  · intro htype
    rw [data_of_entry h tr d index Qt_DisplayRole rvth entry hrvth hvalid hrow hentry]
    simp [data_entry, htype, hcol, hne]
  · intro htype
    rw [data_of_entry h tr d index Qt_DisplayRole rvth entry hrvth hvalid hrow hentry]
    simp [data_entry, htype]

/-- Witness of amended claim C16 on the sample image with no translation: the
encryption column of bank 1 (dual-layer Wii game, Retail) reads "Retail", and
the encryption column of bank 4 (empty, crypto type None) is the empty
value. -/
theorem data_encryption_names_witness :
    (sampleModel.rvth = some sampleBanks
      ∧ (QModelIndex.mk 0 8 true).isValid = true
      ∧ (QModelIndex.mk 0 8 true).row < sampleBanks.get_BankCount
      ∧ sampleBanks.get_BankEntry (QModelIndex.mk 0 8 true).row
          = some (sampleEntry .RVTH_BankType_Wii_DL 3)
      ∧ (QModelIndex.mk 0 8 true).column = sampleEnums.COL_ENCRYPTION
      ∧ (sampleEntry .RVTH_BankType_Wii_DL 3).type ≠ .RVTH_BankType_Empty
      ∧ (sampleEntry .RVTH_BankType_Wii_DL 3).type ≠ .RVTH_BankType_Wii_DL_Bank2
      ∧ (sampleEntry .RVTH_BankType_Wii_DL 3).crypto_type = sampleEnums.RVTH_CryptoType_Retail
      ∧ (data sampleEnums id sampleModel ⟨0, 8, true⟩ Qt_DisplayRole).1 = .string "Retail")
    ∧ (sampleModel.rvth = some sampleBanks
      ∧ (QModelIndex.mk 3 8 true).isValid = true
      ∧ (QModelIndex.mk 3 8 true).row < sampleBanks.get_BankCount
      ∧ sampleBanks.get_BankEntry (QModelIndex.mk 3 8 true).row
          = some (sampleEntry .RVTH_BankType_Empty 1)
      ∧ (QModelIndex.mk 3 8 true).column = sampleEnums.COL_ENCRYPTION
      ∧ (sampleEntry .RVTH_BankType_Empty 1).type = .RVTH_BankType_Empty
      ∧ (sampleEntry .RVTH_BankType_Empty 1).crypto_type = sampleEnums.RVTH_CryptoType_None
      ∧ (data sampleEnums id sampleModel ⟨3, 8, true⟩ Qt_DisplayRole).1 = .invalid) :=
  ⟨⟨rfl, by decide, by decide, rfl, rfl, by decide, by decide, rfl,
    ((data_encryption_names sampleEnums id sampleModel ⟨0, 8, true⟩ sampleBanks
       (sampleEntry .RVTH_BankType_Wii_DL 3) rfl (by decide) (by decide) rfl rfl).1
       (by decide) (by decide)).2.2.1 rfl⟩,
   ⟨rfl, by decide, by decide, rfl, rfl, rfl, rfl,
    (data_encryption_names sampleEnums id sampleModel ⟨3, 8, true⟩ sampleBanks
       (sampleEntry .RVTH_BankType_Empty 1) rfl (by decide) (by decide) rfl rfl).2.1 rfl⟩⟩

/-! ## Properties of the main window -/

/-- What `lastIndexOf` finds: none of the characters is `c` and the result is
-1, or the string splits at the result into a prefix, `c`, and a suffix
without `c`. -/
theorem lastIndexOf_spec (c : Char) (l : List Char) :
    (c ∉ l ∧ lastIndexOf c l = -1)
    ∨ (∃ pre suf, l = pre ++ c :: suf ∧ c ∉ suf ∧ lastIndexOf c l = (pre.length : Int)) := by
  induction l with
  | nil => left; simp [lastIndexOf]
  | cons x xs ih =>
    rcases ih with ⟨hnot, hidx⟩ | ⟨pre, suf, hsplit, hsuf, hidx⟩
    · by_cases hx : x = c
      · right
        refine ⟨[], xs, by simp [hx], hnot, ?_⟩
        simp [lastIndexOf, hidx, hx]
      · left
        refine ⟨?_, ?_⟩
        · simp [hnot, Ne.symm hx]
        · simp [lastIndexOf, hidx, hx]
    · right
      refine ⟨x :: pre, suf, by simp [hsplit], hsuf, ?_⟩
      have hnonneg : (0 : Int) ≤ (pre.length : Int) := Int.ofNat_nonneg _
      simp [lastIndexOf, hidx, hnonneg]

/-- The display filename of a path that does not start with "/dev/": the
part after the last slash. -/
theorem displayFilenameOf_not_dev (filename : String)
    (hdev : "/dev/".data.isPrefixOf filename.data = false) :
    '/' ∉ (displayFilenameOf filename).data
    ∧ (('/' ∉ filename.data ∧ displayFilenameOf filename = filename)
        ∨ ∃ pre, filename.data = pre ++ '/' :: (displayFilenameOf filename).data) := by
  rcases lastIndexOf_spec '/' filename.data with ⟨hnot, hidx⟩ | ⟨pre, suf, hsplit, hsuf, hidx⟩
  · have hres : displayFilenameOf filename = filename := by
      simp [displayFilenameOf, hdev, hidx]
    rw [hres]
    exact ⟨hnot, Or.inl ⟨hnot, rfl⟩⟩
  · have hnonneg : (0 : Int) ≤ (pre.length : Int) := Int.ofNat_nonneg _
    have hnat : ((pre.length : Int) + 1).toNat = pre.length + 1 := by omega
    have hdrop : filename.data.drop (pre.length + 1) = suf := by
      rw [hsplit]
      have h1 : pre ++ '/' :: suf = (pre ++ ['/']) ++ suf := by simp
      rw [h1, List.drop_append_of_le_length (by simp)]
      simp
    have hres : displayFilenameOf filename = String.mk suf := by
      simp [displayFilenameOf, hdev, hidx, hnonneg, hnat, hdrop]
    rw [hres]
    exact ⟨hsuf, Or.inr ⟨pre, hsplit⟩⟩

/-- Claim C19: after `openRvtH` has opened `filename` (non-Windows build),
the display filename of a path that does not start with "/dev/" is the part
of the path after its last slash, the whole path when it has no slash, and so
contains no slash; the display filename of a path that starts with "/dev/" is
the path itself. -/
theorem openRvtH_displayFilename (bankCountOf : Nat → Int) (d : QRvtHToolWindowPrivate)
    (filename : String) (p : Nat) :
    ("/dev/".data.isPrefixOf filename.data = false →
      '/' ∉ (openRvtH bankCountOf d filename (some p)).1.displayFilename.data
      ∧ (('/' ∉ filename.data
            ∧ (openRvtH bankCountOf d filename (some p)).1.displayFilename = filename)
          ∨ ∃ pre, filename.data
              = pre ++ '/' :: (openRvtH bankCountOf d filename (some p)).1.displayFilename.data))
    ∧ ("/dev/".data.isPrefixOf filename.data = true →
      (openRvtH bankCountOf d filename (some p)).1.displayFilename = filename)
    ∧ (openRvtH bankCountOf d filename (some p)).1.filename = filename := by
  have hdisp : (openRvtH bankCountOf d filename (some p)).1.displayFilename
      = displayFilenameOf filename := rfl
  refine ⟨?_, ?_, rfl⟩
  · intro hdev
    rw [hdisp]
    exact displayFilenameOf_not_dev filename hdev
  · intro hdev
    rw [hdisp]
    simp [displayFilenameOf, hdev]

/-- Witness of claim C19: an image file in a directory, and a device. -/
theorem openRvtH_displayFilename_witness :
    ("/dev/".data.isPrefixOf "/home/user/rvth.img".data = false
      ∧ '/' ∉ (openRvtH (fun _ => 8) ⟨none, none, "", "", []⟩ "/home/user/rvth.img"
                (some 1)).1.displayFilename.data)
    ∧ ("/dev/".data.isPrefixOf "/dev/sdb".data = true
      ∧ (openRvtH (fun _ => 8) ⟨none, none, "", "", []⟩ "/dev/sdb" (some 1)).1.displayFilename
          = "/dev/sdb") :=
  ⟨⟨by decide,
     ((openRvtH_displayFilename (fun _ => 8) ⟨none, none, "", "", []⟩ "/home/user/rvth.img" 1).1
        (by decide)).1⟩,
   ⟨by decide,
     (openRvtH_displayFilename (fun _ => 8) ⟨none, none, "", "", []⟩ "/dev/sdb" 1).2.1
        (by decide)⟩⟩

/-- The pointer the model holds after `setRvtH(rvth)` is `rvth`. -/
theorem setRvtH_fst (bankCountOf : Nat → Int) (d_rvth rvth : Option Nat) :
    (setRvtH bankCountOf d_rvth rvth).1 = rvth := by
  cases d_rvth <;> cases rvth <;> rfl

/-- The last state `openRvtH` passes through is the state it returns. -/
theorem openRvtH_states_last (bankCountOf : Nat → Int) (d : QRvtHToolWindowPrivate)
    (filename : String) (new_rvth : Option Nat) :
    (openRvtH_states bankCountOf d filename new_rvth).getLast?
      = some (openRvtH bankCountOf d filename new_rvth).1 := by
  obtain ⟨rvth, model_rvth, fn, dfn, live⟩ := d
  cases rvth <;> cases new_rvth <;> simp [openRvtH_states, openRvtH, setRvtH_fst]

/-- The last state `closeRvtH` passes through is the state it returns; with
nothing open it passes through none. -/
theorem closeRvtH_states_last (bankCountOf : Nat → Int) (d : QRvtHToolWindowPrivate) :
    (closeRvtH_states bankCountOf d).getLast?.getD d = (closeRvtH bankCountOf d).1 := by
  obtain ⟨rvth, model_rvth, fn, dfn, live⟩ := d
  cases rvth <;> simp [closeRvtH_states, closeRvtH, setRvtH_fst]

/-- The states of one call keep the model's pointer valid. -/
theorem call_states_valid (bankCountOf : Nat → Int) (d : QRvtHToolWindowPrivate)
    (c : WindowCall) (hd : modelRefersToOpenImage d) :
    ∀ s ∈ c.states bankCountOf d, modelRefersToOpenImage s := by
  obtain ⟨rvth, model_rvth, fn, dfn, live⟩ := d
  have hnone : rvth = none → model_rvth = none := by
    intro hr
    cases hm : model_rvth with
    | none => rfl
    | some q =>
      have := (hd q (by simp [hm])).1
      simp [hr] at this
  cases c with
  | openRvtH filename new_rvth =>
    cases rvth with
    | none =>
      have hm := hnone rfl
      subst hm
      cases new_rvth <;>
        simp [WindowCall.states, openRvtH_states, modelRefersToOpenImage, setRvtH_fst]
    | some old =>
      cases new_rvth <;>
        simp [WindowCall.states, openRvtH_states, modelRefersToOpenImage, setRvtH_fst]
  | closeRvtH =>
    cases rvth <;>
      simp [WindowCall.states, closeRvtH_states, modelRefersToOpenImage, setRvtH_fst]

/-- The state after one call keeps the model's pointer valid. -/
theorem call_run_valid (bankCountOf : Nat → Int) (d : QRvtHToolWindowPrivate)
    (c : WindowCall) (hd : modelRefersToOpenImage d) :
    modelRefersToOpenImage (c.run bankCountOf d) := by
  cases c with
  | openRvtH filename new_rvth =>
    have hlast := openRvtH_states_last bankCountOf d filename new_rvth
    exact call_states_valid bankCountOf d (.openRvtH filename new_rvth) hd _
      (List.mem_of_getLast?_eq_some hlast)
  | closeRvtH =>
    cases hr : d.rvth with
    | none =>
      have : (closeRvtH bankCountOf d).1 = d := by simp [closeRvtH, hr]
      simpa [WindowCall.run, this] using hd
    | some old =>
      intro p hp
      simp [WindowCall.run, closeRvtH, hr, setRvtH_fst] at hp

/-- Every state of a sequence of calls keeps the model's pointer valid, when
the first state does. -/
theorem statesOfCalls_valid (bankCountOf : Nat → Int) (calls : List WindowCall) :
    ∀ d, modelRefersToOpenImage d →
      ∀ s ∈ statesOfCalls bankCountOf d calls, modelRefersToOpenImage s := by
  induction calls with
  | nil =>
    intro d hd s hs
    simp only [statesOfCalls, List.mem_singleton] at hs
    rw [hs]; exact hd
  | cons c cs ih =>
    intro d hd s hs
    simp only [statesOfCalls, List.mem_cons, List.mem_append] at hs
    rcases hs with hs | hs | hs
    · rw [hs]; exact hd
    · exact call_states_valid bankCountOf d c hd s hs
    · exact ih _ (call_run_valid bankCountOf d c hd) s hs

/-- A call in which `new` yields an object keeps a closed window cleared. -/
theorem call_run_cleared (bankCountOf : Nat → Int) (d : QRvtHToolWindowPrivate)
    (c : WindowCall) (hnew : c.newYieldsObject = true) (hd : clearedWhenClosed d) :
    clearedWhenClosed (c.run bankCountOf d) := by
  cases c with
  | openRvtH filename new_rvth =>
    cases new_rvth with
    | none => simp [WindowCall.newYieldsObject] at hnew
    | some p =>
      intro hr
      simp [WindowCall.run, openRvtH] at hr
  | closeRvtH =>
    cases hr : d.rvth with
    | none =>
      have : (closeRvtH bankCountOf d).1 = d := by simp [closeRvtH, hr]
      simpa [WindowCall.run, this] using hd
    | some old =>
      intro _
      simp [WindowCall.run, closeRvtH, hr, setRvtH_fst]

/-- After calls in which `new` yields an object, a closed window is cleared. -/
theorem runCalls_cleared (bankCountOf : Nat → Int) (calls : List WindowCall) :
    ∀ d, clearedWhenClosed d → (∀ c ∈ calls, c.newYieldsObject = true) →
      clearedWhenClosed (runCalls bankCountOf d calls) := by
  induction calls with
  | nil => intro d hd _; exact hd
  | cons c cs ih =>
    intro d hd hnew
    exact ih _ (call_run_cleared bankCountOf d c (hnew c (by simp)) hd)
      (fun c2 hc2 => hnew c2 (by simp [hc2]))

/-- The last state of a sequence of calls is the state after the calls. -/
theorem statesOfCalls_last (bankCountOf : Nat → Int) (calls : List WindowCall) :
    ∀ d, (statesOfCalls bankCountOf d calls).getLast? = some (runCalls bankCountOf d calls) := by
  induction calls with
  | nil => intro d; rfl
  | cons c cs ih =>
    intro d
    have h := ih (c.run bankCountOf d)
    simp [statesOfCalls, runCalls, List.getLast?_cons, List.getLast?_append, h]

/-- The branch of `openRvtH` for a null pointer from `new`, which a C++ `new`
expression of this form does not yield: the image that was open is closed,
but the two filenames keep their values, and a later `closeRvtH` finds nothing
open and leaves them. -/
theorem openRvtH_null_pointer_keeps_filenames :
    runCalls (fun _ => 8) initialWindow
        [.openRvtH "/home/user/rvth.img" (some 1), .openRvtH "/dev/sdb" none, .closeRvtH]
      = ⟨none, none, "/home/user/rvth.img", "rvth.img", []⟩ := by
  decide

/-- Claim C21: in every state that a window passes through during any
sequence of `openRvtH` and `closeRvtH` calls, starting from a new window, the
model's image pointer, when set, is the window's image pointer and points to
an image that has not been deleted. Both methods, finding an image open,
first detach the model (`setRvtH(nullptr)`) and then delete the image.
A `closeRvtH` that finds an image open leaves the window's image, the model's
image, the filename and the display filename cleared; a `closeRvtH` that
finds nothing open changes nothing and has no effect. After any sequence of
calls in which every `new` yields an object, as it does in C++, `closeRvtH`
leaves all four cleared. -/
theorem window_model_refers_to_open_image (bankCountOf : Nat → Int)
    (calls : List WindowCall) :
    (∀ s ∈ statesOfCalls bankCountOf initialWindow calls,
        ∀ p, s.model_rvth = some p → s.rvth = some p ∧ p ∈ s.live)
    ∧ (statesOfCalls bankCountOf initialWindow calls).getLast?
        = some (runCalls bankCountOf initialWindow calls)
    ∧ (∀ (d : QRvtHToolWindowPrivate) (old : Nat), d.rvth = some old →
        (∃ rest, closeRvtH_states bankCountOf d
            = { d with model_rvth := none }
              :: { d with model_rvth := none, live := d.live.filter (fun a => a != old) }
              :: rest)
        ∧ (∀ filename new_rvth, ∃ rest, openRvtH_states bankCountOf d filename new_rvth
            = { d with model_rvth := none }
              :: { d with model_rvth := none, live := d.live.filter (fun a => a != old) }
              :: rest)
        ∧ (closeRvtH_states bankCountOf d).getLast? = some (closeRvtH bankCountOf d).1
        ∧ (closeRvtH bankCountOf d).1.rvth = none
        ∧ (closeRvtH bankCountOf d).1.model_rvth = none
        ∧ (closeRvtH bankCountOf d).1.filename = ""
        ∧ (closeRvtH bankCountOf d).1.displayFilename = "")
    ∧ (∀ (d : QRvtHToolWindowPrivate) filename new_rvth,
        (openRvtH_states bankCountOf d filename new_rvth).getLast?
          = some (openRvtH bankCountOf d filename new_rvth).1)
    ∧ (∀ d : QRvtHToolWindowPrivate, d.rvth = none →
        closeRvtH bankCountOf d = (d, []) ∧ closeRvtH_states bankCountOf d = [])
    ∧ ((∀ c ∈ calls, c.newYieldsObject = true) →
        (closeRvtH bankCountOf (runCalls bankCountOf initialWindow calls)).1.rvth = none
        ∧ (closeRvtH bankCountOf (runCalls bankCountOf initialWindow calls)).1.model_rvth = none
        ∧ (closeRvtH bankCountOf (runCalls bankCountOf initialWindow calls)).1.filename = ""
        ∧ (closeRvtH bankCountOf (runCalls bankCountOf initialWindow calls)).1.displayFilename
            = "") := by
  have hinit : modelRefersToOpenImage initialWindow := by
    intro p hp
    simp [initialWindow] at hp
  have hinit2 : clearedWhenClosed initialWindow := by
    intro _
    simp [initialWindow]
  refine ⟨?_, statesOfCalls_last bankCountOf calls initialWindow, ?_, ?_, ?_, ?_⟩
  · exact statesOfCalls_valid bankCountOf calls initialWindow hinit
  · intro d old hr
    obtain ⟨rvth, model_rvth, fn, dfn, live⟩ := d
    simp only at hr
    subst hr
    refine ⟨⟨_, by simp [closeRvtH_states, setRvtH_fst]; rfl⟩, ?_, ?_, ?_, ?_, ?_, ?_⟩
    · intro filename new_rvth
      cases new_rvth with
      | none => exact ⟨_, by simp [openRvtH_states, setRvtH_fst]; rfl⟩
      | some p => exact ⟨_, by simp [openRvtH_states, setRvtH_fst]; rfl⟩
    · simp [closeRvtH_states, closeRvtH, setRvtH_fst]
    · simp [closeRvtH]
    · simp [closeRvtH, setRvtH_fst]
    · simp [closeRvtH]
    · simp [closeRvtH]
  · intro d filename new_rvth
    exact openRvtH_states_last bankCountOf d filename new_rvth
  · intro d hr
    simp [closeRvtH, closeRvtH_states, hr]
  · intro hnew
    have hcl := runCalls_cleared bankCountOf calls initialWindow hinit2 hnew
    cases hr : (runCalls bankCountOf initialWindow calls).rvth with
    | none =>
      have hsame : (closeRvtH bankCountOf (runCalls bankCountOf initialWindow calls)).1
          = runCalls bankCountOf initialWindow calls := by
        simp [closeRvtH, hr]
      rw [hsame]
      exact ⟨hr, hcl hr⟩
    | some old =>
      simp [closeRvtH, hr, setRvtH_fst]

/-- Witness of claim C21: a window that opens an image file, opens a device
instead, and is closed twice. -/
theorem window_model_refers_to_open_image_witness :
    (∀ c ∈ [WindowCall.openRvtH "/home/user/rvth.img" (some 1),
            WindowCall.openRvtH "/dev/sdb" (some 2), WindowCall.closeRvtH,
            WindowCall.closeRvtH], c.newYieldsObject = true)
    ∧ (closeRvtH (fun _ => 8) (runCalls (fun _ => 8) initialWindow
        [.openRvtH "/home/user/rvth.img" (some 1), .openRvtH "/dev/sdb" (some 2),
         .closeRvtH, .closeRvtH])).1.rvth = none
    ∧ (closeRvtH (fun _ => 8) (runCalls (fun _ => 8) initialWindow
        [.openRvtH "/home/user/rvth.img" (some 1), .openRvtH "/dev/sdb" (some 2),
         .closeRvtH, .closeRvtH])).1.model_rvth = none
    ∧ (closeRvtH (fun _ => 8) (runCalls (fun _ => 8) initialWindow
        [.openRvtH "/home/user/rvth.img" (some 1), .openRvtH "/dev/sdb" (some 2),
         .closeRvtH, .closeRvtH])).1.filename = ""
    ∧ (closeRvtH (fun _ => 8) (runCalls (fun _ => 8) initialWindow
        [.openRvtH "/home/user/rvth.img" (some 1), .openRvtH "/dev/sdb" (some 2),
         .closeRvtH, .closeRvtH])).1.displayFilename = "" :=
  ⟨by decide,
   (window_model_refers_to_open_image (fun _ => 8)
      [.openRvtH "/home/user/rvth.img" (some 1), .openRvtH "/dev/sdb" (some 2),
       .closeRvtH, .closeRvtH]).2.2.2.2.2 (by decide)⟩

end RvtHTool
